import Mathlib

/-!
Verification of the travel-planner backend request-validation and
persistence-orchestration layer.

The definitions below are a shallow embedding of the Python source under
src/travel_planner_backend/src: the SQLAlchemy models (db/models.py), the
pydantic schemas (schemas/travel.py plus the router-local update schemas),
and the route handlers (api/routes/trips.py, itinerary.py, notes.py,
reminders.py, destinations.py).

Modelling conventions:
- Opaque UUIDs are modelled as natural numbers; dates and datetimes as
  integers (only their ordering is used by the code).
- A database state is the five tables as lists of rows.  A handler is a
  function from the state (plus request data) to an Except value: an error
  models an HTTP 404/422 response, and, because the per-request session is
  closed without commit on such an early raise (db/session.py get_db), an
  error leaves the store unchanged; a successful handler returns the new
  state together with the response body.  Commit is the single transition
  to the returned state, so a cascading delete is one atomic step.
- Python str.strip() is modelled character-wise (pyStrip); SQL ILIKE is
  modelled by a case-insensitive LIKE matcher over the lowered character
  lists, with the wildcard semantics of the percent and underscore
  characters, since destinations.py builds the pattern by string
  interpolation without escaping.  Case folding is ASCII, which is what the
  claims exercise.
- Pydantic constraints that no claim depends on (max_length bounds, the
  day >= 1 bound) are not modelled; payloads are taken as already parsed.
  The one schema-level validator that matters is TripUpdate._name_not_blank
  (trips.py lines 31-36), which runs before the handler body.
-/

namespace TravelPlanner

abbrev Uuid := Nat

/-- Python str.strip() strips these whitespace characters (the ones relevant
to the spec and claims). -/
def is_space_char (c : Char) : Bool :=
  c == ' ' || c == '\t' || c == '\n' || c == '\r'

/-- Strip leading and trailing whitespace from a character list. -/
def strip_chars (cs : List Char) : List Char :=
  ((cs.dropWhile is_space_char).reverse.dropWhile is_space_char).reverse

/-- Model of Python str.strip() on strings. -/
def pyStrip (s : String) : String :=
  ⟨strip_chars s.data⟩

/-- ASCII lower-casing of one character (model of the case folding performed
by SQL ILIKE / Python lower for the inputs exercised here). -/
def lower_char (c : Char) : Char :=
  if 'A' ≤ c && c ≤ 'Z' then Char.ofNat (c.toNat + 32) else c

/-- ASCII lower-casing of a character list. -/
def lower_chars (cs : List Char) : List Char :=
  cs.map lower_char

/-- SQL LIKE matching over character lists: the percent character matches any
(possibly empty) sequence, the underscore matches exactly one character, and
every other pattern character matches itself.  destinations.py passes the
interpolated pattern to ilike without escaping, so these wildcard semantics
apply to characters coming from the query text as well. -/
def like_fuel : Nat → List Char → List Char → Bool
  | 0, _, _ => false
  | _ + 1, [], [] => true
  | _ + 1, [], _ :: _ => false
  | fuel + 1, '%' :: ps, s =>
    like_fuel fuel ps s ||
      (match s with
       | [] => false
       | _ :: t => like_fuel fuel ('%' :: ps) t)
  | fuel + 1, '_' :: ps, s =>
    (match s with
     | [] => false
     | _ :: t => like_fuel fuel ps t)
  | fuel + 1, p :: ps, s =>
    (match s with
     | [] => false
     | c :: t => p == c && like_fuel fuel ps t)

/-- LIKE matching of a whole pattern against a whole string.  Every
recursive step of like_fuel shrinks the combined length of the remaining
pattern and string by at least one, so a fuel of that combined length plus
one is never exhausted and the zero-fuel branch is unreachable; the fuel is
purely a structural-termination device. -/
def like_core (p s : List Char) : Bool :=
  like_fuel (p.length + s.length + 1) p s

/-- Model of SQLAlchemy column.ilike(pattern): case-insensitive LIKE. -/
def ilike (pattern s : String) : Bool :=
  like_core (lower_chars pattern.data) (lower_chars s.data)

/-- ILIKE applied to a nullable column: SQL NULL never matches (the NULL
condition is simply false inside the OR). -/
def ilike_opt (pattern : String) : Option String → Bool
  | some s => ilike pattern s
  | none => false

/-- Case-insensitive substring test, written from the words of the spec
(trimmed query appears as a case-insensitive substring); used to compare the
specified search semantics with what the code computes. -/
def heads_match : List Char → List Char → Bool
  | [], _ => true
  | _ :: _, [] => false
  | a :: as, b :: bs => a == b && heads_match as bs

/-- Does the needle occur contiguously inside the haystack? -/
def contains_sub (needle : List Char) : List Char → Bool
  | [] => needle.isEmpty
  | c :: t => heads_match needle (c :: t) || contains_sub needle t

/-- Spec-side predicate: needle is a case-insensitive substring of hay. -/
def spec_ci_substring (needle hay : String) : Bool :=
  contains_sub (lower_chars needle.data) (lower_chars hay.data)

/-! ## Data model (db/models.py) -/

/-- Row of the trips table. -/
structure Trip where
  id : Uuid
  name : String
  start_date : Option Int
  end_date : Option Int
  created_at : Int
deriving DecidableEq, Repr

/-- Row of the destinations table. -/
structure Destination where
  id : Uuid
  name : String
  country : Option String
  city : Option String
  description : Option String
  popularity : Option Int
deriving DecidableEq, Repr

/-- Row of the itinerary_items table. -/
structure ItineraryItem where
  id : Uuid
  trip_id : Uuid
  day : Nat
  title : String
  description : Option String
  start_time : Option Int
  end_time : Option Int
  destination_id : Option Uuid
deriving DecidableEq, Repr

/-- Row of the notes table. -/
structure Note where
  id : Uuid
  trip_id : Uuid
  content : String
  created_at : Int
deriving DecidableEq, Repr

/-- Row of the reminders table. -/
structure Reminder where
  id : Uuid
  trip_id : Uuid
  message : String
  remind_at : Int
  created_at : Int
deriving DecidableEq, Repr

/-- The relational store: the five tables. -/
structure Db where
  trips : List Trip
  destinations : List Destination
  items : List ItineraryItem
  notes : List Note
  reminders : List Reminder
deriving DecidableEq, Repr

/-! ## Request schemas (schemas/travel.py and router-local update schemas) -/

/-- TripCreate (= TripBase): name with max_length only; pydantic places no
non-blank constraint on the created name. -/
structure TripCreate where
  name : String
  start_date : Option Int
  end_date : Option Int
deriving DecidableEq, Repr

/-- TripUpdate (trips.py): all fields optional; a provided name that strips
to the empty string is rejected by the schema validator before the handler
runs. -/
structure TripUpdate where
  name : Option String
  start_date : Option Int
  end_date : Option Int
deriving DecidableEq, Repr

/-- ItineraryItemCreate (= ItineraryItemBase). -/
structure ItineraryItemCreate where
  trip_id : Uuid
  day : Nat
  title : String
  description : Option String
  start_time : Option Int
  end_time : Option Int
  destination_id : Option Uuid
deriving DecidableEq, Repr

/-- ItineraryItemUpdate (itinerary.py): all fields optional; trip_id is
intentionally not updatable. -/
structure ItineraryItemUpdate where
  day : Option Nat
  title : Option String
  description : Option String
  start_time : Option Int
  end_time : Option Int
  destination_id : Option Uuid
deriving DecidableEq, Repr

/-- NoteCreate (= NoteBase). -/
structure NoteCreate where
  trip_id : Uuid
  content : String
deriving DecidableEq, Repr

/-- NoteUpdate (notes.py): only content is editable. -/
structure NoteUpdate where
  content : Option String
deriving DecidableEq, Repr

/-- ReminderCreate (= ReminderBase). -/
structure ReminderCreate where
  trip_id : Uuid
  message : String
  remind_at : Int
deriving DecidableEq, Repr

/-- ReminderUpdate (reminders.py): message and remind_at editable. -/
structure ReminderUpdate where
  message : Option String
  remind_at : Option Int
deriving DecidableEq, Repr

/-- Destination search result item (DestinationSearchResult): score is kept
optional and is never populated by the handler (it always sets score=None);
its numeric carrier is irrelevant to every claim, so it is modelled as an
optional integer. -/
structure DestinationSearchResult where
  id : Uuid
  name : String
  country : Option String
  city : Option String
  popularity : Option Int
  score : Option Int
deriving DecidableEq, Repr

/-- Common shape of the paginated list/search response classes
(TripListResponse, ItineraryItemListResponse, NoteListResponse,
ReminderListResponse, DestinationSearchResponse): total, limit, offset and
the page items.  The per-entity pydantic classes are structurally identical,
so they are modelled by one parametric structure; the Read schemas carry the
same fields as the rows, so items hold the rows themselves. -/
structure ListResponse (α : Type) where
  total : Nat
  limit : Nat
  offset : Nat
  items : List α
deriving DecidableEq, Repr

/-! ## Error taxonomy -/

/-- User-facing structured errors raised by the handlers. -/
inductive ApiError where
  | notFound
  | validationFailure
deriving DecidableEq, Repr

/-- Fixed HTTP status code of each structured error. -/
def statusCode : ApiError → Nat
  | .notFound => 404
  | .validationFailure => 422

/-- Result of a handler: a structured error (the session is closed without
commit, leaving the store unchanged) or a value. -/
abbrev ApiM (α : Type) := Except ApiError α

/-- The store an operation leaves behind: the new state on success, the
unchanged input state on a structured error (rollback on close). -/
def db_after {α : Type} (db : Db) : ApiM (Db × α) → Db
  | .ok (db2, _) => db2
  | .error _ => db

/-! ## Lookups -/

/-- db.get(Trip, trip_id): primary-key lookup, shared helper
_get_trip_or_404 of every router (404 when absent). -/
def findTrip (db : Db) (trip_id : Uuid) : Option Trip :=
  db.trips.find? (fun t => t.id == trip_id)

/-- _get_itinerary_item_or_404 (itinerary.py lines 31-37): the select filters
by BOTH the item id and the trip id from the URL path. -/
def find_scoped_item (db : Db) (trip_id item_id : Uuid) : Option ItineraryItem :=
  db.items.find? (fun it => it.id == item_id && it.trip_id == trip_id)

/-- _get_note_or_404 (notes.py lines 30-36). -/
def find_scoped_note (db : Db) (trip_id note_id : Uuid) : Option Note :=
  db.notes.find? (fun n => n.id == note_id && n.trip_id == trip_id)

/-- _get_reminder_or_404 (reminders.py lines 30-36). -/
def find_scoped_reminder (db : Db) (trip_id reminder_id : Uuid) : Option Reminder :=
  db.reminders.find? (fun r => r.id == reminder_id && r.trip_id == trip_id)

/-- Merge of one optional-typed column under partial update: a present
payload field replaces the stored value, an absent one keeps it (the
"if payload.x is not None: row.x = payload.x" idiom). -/
def merge_opt {α : Type} (new old : Option α) : Option α :=
  match new with
  | some v => some v
  | none => old

/-- Merge of a required column under partial update. -/
def merge_req {α : Type} (new : Option α) (old : α) : α :=
  match new with
  | some v => v
  | none => old

/-- The cross-field temporal check used by trips.py and itinerary.py:
"if x.start and x.end and x.end < x.start" (a present date or datetime is
always truthy in Python, so this fires exactly when both are present and end
precedes start). -/
def end_before_start (start_v end_v : Option Int) : Bool :=
  match start_v, end_v with
  | some s, some e => e < s
  | _, _ => false

/-! ## Sorting comparators (the order_by clauses) -/

/-- Sort field accepted by list_trips (Literal created_at | name). -/
inductive TripSortBy where
  | by_created_at
  | by_name
deriving DecidableEq, Repr

/-- Sort direction accepted by list_trips (Literal asc | desc). -/
inductive SortDir where
  | asc
  | desc
deriving DecidableEq, Repr

/-- _apply_trip_sorting (trips.py lines 48-61): a single order_by on the
chosen column in the chosen direction; no further tie-breaking column is
appended. -/
def trip_sort_le (sort_by : TripSortBy) (sort_dir : SortDir) (a b : Trip) : Bool :=
  match sort_by, sort_dir with
  | .by_name, .asc => (compare a.name b.name).isLE
  | .by_name, .desc => (compare b.name a.name).isLE
  | .by_created_at, .asc => (compare a.created_at b.created_at).isLE
  | .by_created_at, .desc => (compare b.created_at a.created_at).isLE

/-- Equality of two trips on the column selected by sort_by (the only
column _apply_trip_sorting ever compares). -/
def trip_sort_col_eq (sort_by : TripSortBy) (a b : Trip) : Prop :=
  match sort_by with
  | .by_name => a.name = b.name
  | .by_created_at => a.created_at = b.created_at

/-- Ascending comparison of a nullable column with nulls_last. -/
def cmp_asc_nulls_last (x y : Option Int) : Ordering :=
  match x, y with
  | some a, some b => compare a b
  | some _, none => .lt
  | none, some _ => .gt
  | none, none => .eq

/-- Descending comparison of a nullable column with nulls_last. -/
def cmp_desc_nulls_last (x y : Option Int) : Ordering :=
  match x, y with
  | some a, some b => compare b a
  | some _, none => .lt
  | none, some _ => .gt
  | none, none => .eq

/-- Itinerary list order (itinerary.py line 101): day asc, then start_time
asc with nulls last, then title asc. -/
def itinerary_le (a b : ItineraryItem) : Bool :=
  ((compare a.day b.day).then
    ((cmp_asc_nulls_last a.start_time b.start_time).then
      (compare a.title b.title))).isLE

/-- Note list order (notes.py line 94): created_at desc. -/
def note_le (a b : Note) : Bool :=
  (compare b.created_at a.created_at).isLE

/-- Reminder list order (reminders.py line 95): remind_at desc. -/
def reminder_le (a b : Reminder) : Bool :=
  (compare b.remind_at a.remind_at).isLE

/-- Destination search order (destinations.py line 78): popularity desc with
nulls last, then name asc. -/
def dest_le (a b : Destination) : Bool :=
  ((cmp_desc_nulls_last a.popularity b.popularity).then
    (compare a.name b.name)).isLE

/-- One step of the stable insertion sort: place a before the first element
it compares less-or-equal to. -/
def insert_le {α : Type} (le : α → α → Bool) (a : α) : List α → List α
  | [] => [a]
  | b :: bs => if le a b then a :: b :: bs else b :: insert_le le a bs

/-- Model of ORDER BY: a deterministic stable sort of the rows by the
comparator; rows the comparator ties keep their underlying table order
(SQL leaves the order of ties to the engine; the embedding fixes one
deterministic realisation, which is exactly what makes the missing
tie-break observable). -/
def order_by {α : Type} (le : α → α → Bool) : List α → List α
  | [] => []
  | a :: as => insert_le le a (order_by le as)

/-- SQL LIMIT/OFFSET applied to the ordered rows: offset is applied first,
then at most limit rows are returned. -/
def paginate {α : Type} (limit offset : Nat) (rows : List α) : List α :=
  (rows.drop offset).take limit

/-! ## Trip handlers (api/routes/trips.py) -/

/-- list_trips (trips.py lines 79-110): total is a bare count over the whole
table, computed independently of the paginated page query. -/
def list_trips (db : Db) (limit offset : Nat)
    (sort_by : TripSortBy) (sort_dir : SortDir) : ListResponse Trip :=
  { total := db.trips.length
    limit := limit
    offset := offset
    items := paginate limit offset (order_by (trip_sort_le sort_by sort_dir) db.trips) }

/-- create_trip (trips.py lines 121-149): the name is stored stripped;
TripCreate carries no non-blank validator, so no blank check happens here;
the cross-field date check raises 422 before anything is added. -/
def create_trip (db : Db) (payload : TripCreate) (new_id : Uuid) (now : Int) :
    ApiM (Db × Trip) :=
  let trip : Trip :=
    { id := new_id
      name := pyStrip payload.name
      start_date := payload.start_date
      end_date := payload.end_date
      created_at := now }
  if end_before_start trip.start_date trip.end_date then
    .error .validationFailure
  else
    .ok ({ db with trips := db.trips ++ [trip] }, trip)

/-- get_trip (trips.py lines 159-172). -/
def get_trip (db : Db) (trip_id : Uuid) : ApiM Trip :=
  match findTrip db trip_id with
  | none => .error .notFound
  | some trip => .ok trip

/-- The TripUpdate schema validator _name_not_blank (trips.py lines 31-36):
a provided name that strips to empty is rejected (pydantic turns the
ValueError into a 422 before the handler body runs). -/
def trip_update_name_blank (payload : TripUpdate) : Bool :=
  match payload.name with
  | some n => pyStrip n == ""
  | none => false

/-- update_trip (trips.py lines 182-216): schema validation first (before
even the 404 lookup), then only provided fields are merged and the date
invariant is re-checked on the merged record. -/
def update_trip (db : Db) (trip_id : Uuid) (payload : TripUpdate) :
    ApiM (Db × Trip) :=
  if trip_update_name_blank payload then
    .error .validationFailure
  else
    match findTrip db trip_id with
    | none => .error .notFound
    | some trip =>
      let trip2 : Trip :=
        { trip with
          name := merge_req (payload.name.map pyStrip) trip.name
          start_date := merge_opt payload.start_date trip.start_date
          end_date := merge_opt payload.end_date trip.end_date }
      if end_before_start trip2.start_date trip2.end_date then
        .error .validationFailure
      else
        .ok ({ db with
               trips := db.trips.map (fun t => if t.id == trip_id then trip2 else t) },
             trip2)

/-- delete_trip (trips.py lines 226-242) together with the cascade declared
on the model (models.py: relationships with cascade all, delete-orphan and
ondelete CASCADE on the child foreign keys): the one commit removes the trip
and every itinerary item, note and reminder owned by it. -/
def delete_trip (db : Db) (trip_id : Uuid) : ApiM (Db × Unit) :=
  match findTrip db trip_id with
  | none => .error .notFound
  | some _ =>
    .ok ({ trips := db.trips.filter (fun t => !(t.id == trip_id))
           destinations := db.destinations
           items := db.items.filter (fun it => !(it.trip_id == trip_id))
           notes := db.notes.filter (fun n => !(n.trip_id == trip_id))
           reminders := db.reminders.filter (fun r => !(r.trip_id == trip_id)) },
          ())

/-! ## Itinerary handlers (api/routes/itinerary.py) -/

/-- list_itinerary_items (itinerary.py lines 73-107): parent trip checked
first; total counts every row of the trip, ignoring pagination. -/
def list_itinerary_items (db : Db) (trip_id : Uuid) (limit offset : Nat) :
    ApiM (ListResponse ItineraryItem) :=
  match findTrip db trip_id with
  | none => .error .notFound
  | some _ =>
    let rows := db.items.filter (fun it => it.trip_id == trip_id)
    .ok { total := rows.length
          limit := limit
          offset := offset
          items := paginate limit offset (order_by itinerary_le rows) }

/-- create_itinerary_item (itinerary.py lines 118-167): parent trip first
(404), then payload trip_id must equal the path trip_id (422), then the
create-time temporal check (422); the stored title is stripped, with no
non-blank check on create. -/
def create_itinerary_item (db : Db) (trip_id : Uuid)
    (payload : ItineraryItemCreate) (new_id : Uuid) :
    ApiM (Db × ItineraryItem) :=
  match findTrip db trip_id with
  | none => .error .notFound
  | some _ =>
    if !(payload.trip_id == trip_id) then
      .error .validationFailure
    else if end_before_start payload.start_time payload.end_time then
      .error .validationFailure
    else
      let item : ItineraryItem :=
        { id := new_id
          trip_id := trip_id
          day := payload.day
          title := pyStrip payload.title
          description := payload.description
          start_time := payload.start_time
          end_time := payload.end_time
          destination_id := payload.destination_id }
      .ok ({ db with items := db.items ++ [item] }, item)

/-- get_itinerary_item (itinerary.py lines 177-196): trip existence, then
the doubly-filtered lookup. -/
def get_itinerary_item (db : Db) (trip_id item_id : Uuid) : ApiM ItineraryItem :=
  match findTrip db trip_id with
  | none => .error .notFound
  | some _ =>
    match find_scoped_item db trip_id item_id with
    | none => .error .notFound
    | some item => .ok item

/-- update_itinerary_item (itinerary.py lines 206-261): trip existence, the
scoped lookup, per-field merge (a provided title must not strip to blank and
is stored stripped), then the temporal invariant re-checked on the fully
merged record. -/
def update_itinerary_item (db : Db) (trip_id item_id : Uuid)
    (payload : ItineraryItemUpdate) : ApiM (Db × ItineraryItem) :=
  match findTrip db trip_id with
  | none => .error .notFound
  | some _ =>
    match find_scoped_item db trip_id item_id with
    | none => .error .notFound
    | some item =>
      if (match payload.title with
          | some n => pyStrip n == ""
          | none => false) then
        .error .validationFailure
      else
        let item2 : ItineraryItem :=
          { item with
            day := merge_req payload.day item.day
            title := merge_req (payload.title.map pyStrip) item.title
            description := merge_opt payload.description item.description
            start_time := merge_opt payload.start_time item.start_time
            end_time := merge_opt payload.end_time item.end_time
            destination_id := merge_opt payload.destination_id item.destination_id }
        if end_before_start item2.start_time item2.end_time then
          .error .validationFailure
        else
          .ok ({ db with
                 items := db.items.map (fun it => if it.id == item_id then item2 else it) },
               item2)

/-- delete_itinerary_item (itinerary.py lines 271-294). -/
def delete_itinerary_item (db : Db) (trip_id item_id : Uuid) : ApiM (Db × Unit) :=
  match findTrip db trip_id with
  | none => .error .notFound
  | some _ =>
    match find_scoped_item db trip_id item_id with
    | none => .error .notFound
    | some item =>
      .ok ({ db with items := db.items.filter (fun it => !(it.id == item.id)) }, ())

/-! ## Note handlers (api/routes/notes.py) -/

/-- list_notes (notes.py lines 66-100). -/
def list_notes (db : Db) (trip_id : Uuid) (limit offset : Nat) :
    ApiM (ListResponse Note) :=
  match findTrip db trip_id with
  | none => .error .notFound
  | some _ =>
    let rows := db.notes.filter (fun n => n.trip_id == trip_id)
    .ok { total := rows.length
          limit := limit
          offset := offset
          items := paginate limit offset (order_by note_le rows) }

/-- create_note (notes.py lines 111-157): parent trip first (404), then the
trip_id mismatch check (422), then the blank-content check (422); note that
the stored content is the payload content verbatim, NOT the stripped form
(strip is used only inside the blank test). -/
def create_note (db : Db) (trip_id : Uuid) (payload : NoteCreate)
    (new_id : Uuid) (now : Int) : ApiM (Db × Note) :=
  match findTrip db trip_id with
  | none => .error .notFound
  | some _ =>
    if !(payload.trip_id == trip_id) then
      .error .validationFailure
    else if pyStrip payload.content == "" then
      .error .validationFailure
    else
      let note : Note :=
        { id := new_id
          trip_id := trip_id
          content := payload.content
          created_at := now }
      .ok ({ db with notes := db.notes ++ [note] }, note)

/-- get_note (notes.py lines 167-186). -/
def get_note (db : Db) (trip_id note_id : Uuid) : ApiM Note :=
  match findTrip db trip_id with
  | none => .error .notFound
  | some _ =>
    match find_scoped_note db trip_id note_id with
    | none => .error .notFound
    | some note => .ok note

/-- update_note (notes.py lines 196-230): a provided content must not strip
to blank, and is stored verbatim (not stripped). -/
def update_note (db : Db) (trip_id note_id : Uuid) (payload : NoteUpdate) :
    ApiM (Db × Note) :=
  match findTrip db trip_id with
  | none => .error .notFound
  | some _ =>
    match find_scoped_note db trip_id note_id with
    | none => .error .notFound
    | some note =>
      if (match payload.content with
          | some n => pyStrip n == ""
          | none => false) then
        .error .validationFailure
      else
        let note2 : Note := { note with content := merge_req payload.content note.content }
        .ok ({ db with
               notes := db.notes.map (fun n => if n.id == note_id then note2 else n) },
             note2)

/-- delete_note (notes.py lines 240-263). -/
def delete_note (db : Db) (trip_id note_id : Uuid) : ApiM (Db × Unit) :=
  match findTrip db trip_id with
  | none => .error .notFound
  | some _ =>
    match find_scoped_note db trip_id note_id with
    | none => .error .notFound
    | some note =>
      .ok ({ db with notes := db.notes.filter (fun n => !(n.id == note.id)) }, ())

/-! ## Reminder handlers (api/routes/reminders.py) -/

/-- list_reminders (reminders.py lines 67-101). -/
def list_reminders (db : Db) (trip_id : Uuid) (limit offset : Nat) :
    ApiM (ListResponse Reminder) :=
  match findTrip db trip_id with
  | none => .error .notFound
  | some _ =>
    let rows := db.reminders.filter (fun r => r.trip_id == trip_id)
    .ok { total := rows.length
          limit := limit
          offset := offset
          items := paginate limit offset (order_by reminder_le rows) }

/-- create_reminder (reminders.py lines 112-159): parent trip first (404),
trip_id mismatch (422), blank message (422); the stored message is the
stripped form. -/
def create_reminder (db : Db) (trip_id : Uuid) (payload : ReminderCreate)
    (new_id : Uuid) (now : Int) : ApiM (Db × Reminder) :=
  match findTrip db trip_id with
  | none => .error .notFound
  | some _ =>
    if !(payload.trip_id == trip_id) then
      .error .validationFailure
    else if pyStrip payload.message == "" then
      .error .validationFailure
    else
      let reminder : Reminder :=
        { id := new_id
          trip_id := trip_id
          message := pyStrip payload.message
          remind_at := payload.remind_at
          created_at := now }
      .ok ({ db with reminders := db.reminders ++ [reminder] }, reminder)

/-- get_reminder (reminders.py lines 169-188). -/
def get_reminder (db : Db) (trip_id reminder_id : Uuid) : ApiM Reminder :=
  match findTrip db trip_id with
  | none => .error .notFound
  | some _ =>
    match find_scoped_reminder db trip_id reminder_id with
    | none => .error .notFound
    | some reminder => .ok reminder

/-- update_reminder (reminders.py lines 198-235): a provided message must
not strip to blank and is stored stripped; remind_at is merged when
provided. -/
def update_reminder (db : Db) (trip_id reminder_id : Uuid)
    (payload : ReminderUpdate) : ApiM (Db × Reminder) :=
  match findTrip db trip_id with
  | none => .error .notFound
  | some _ =>
    match find_scoped_reminder db trip_id reminder_id with
    | none => .error .notFound
    | some reminder =>
      if (match payload.message with
          | some n => pyStrip n == ""
          | none => false) then
        .error .validationFailure
      else
        let reminder2 : Reminder :=
          { reminder with
            message := merge_req (payload.message.map pyStrip) reminder.message
            remind_at := merge_req payload.remind_at reminder.remind_at }
        .ok ({ db with
               reminders := db.reminders.map
                 (fun r => if r.id == reminder_id then reminder2 else r) },
             reminder2)

/-- delete_reminder (reminders.py lines 245-268). -/
def delete_reminder (db : Db) (trip_id reminder_id : Uuid) : ApiM (Db × Unit) :=
  match findTrip db trip_id with
  | none => .error .notFound
  | some _ =>
    match find_scoped_reminder db trip_id reminder_id with
    | none => .error .notFound
    | some reminder =>
      .ok ({ db with
             reminders := db.reminders.filter (fun r => !(r.id == reminder.id)) },
           ())

/-! ## Destination search (api/routes/destinations.py) -/

/-- The conditions list built by search_destinations (destinations.py lines
62-66): the name condition always, the country condition when
include_country, the city condition when include_city. -/
def search_conditions (pattern : String) (include_country include_city : Bool)
    (d : Destination) : List Bool :=
  [ilike pattern d.name]
    ++ (if include_country then [ilike_opt pattern d.country] else [])
    ++ (if include_city then [ilike_opt pattern d.city] else [])

/-- or_(*conditions): the WHERE clause is the disjunction of the built
conditions. -/
def dest_matches (pattern : String) (include_country include_city : Bool)
    (d : Destination) : Bool :=
  (search_conditions pattern include_country include_city d).any (fun b => b)

/-- Projection of a destination row into DestinationSearchResult
(destinations.py lines 84-94): score is always None. -/
def to_search_result (d : Destination) : DestinationSearchResult :=
  { id := d.id
    name := d.name
    country := d.country
    city := d.city
    popularity := d.popularity
    score := none }

/-- Search predicate written from the words of the claim as frozen: the
trimmed query appears as a case-insensitive SUBSTRING of the name, or of
the country when include_country, or of the city when include_city,
combined by OR (an absent field cannot match). -/
def spec_substring_or_match (q : String) (include_country include_city : Bool)
    (d : Destination) : Bool :=
  spec_ci_substring q d.name ||
    (include_country &&
      (match d.country with
       | some c => spec_ci_substring q c
       | none => false)) ||
    (include_city &&
      (match d.city with
       | some c => spec_ci_substring q c
       | none => false))

/-- Spec-shaped search predicate, written from the words of the spec with
the one correction the wildcard counterexample forces: the trimmed query,
wrapped in percent signs, matches the name, OR the country when
include_country, OR the city when include_city, as a case-insensitive SQL
LIKE fragment (for queries containing no percent or underscore character
this is exactly case-insensitive substring matching). -/
def spec_like_or_match (q : String) (include_country include_city : Bool)
    (d : Destination) : Bool :=
  ilike ("%" ++ q ++ "%") d.name ||
    (include_country && ilike_opt ("%" ++ q ++ "%") d.country) ||
    (include_city && ilike_opt ("%" ++ q ++ "%") d.city)

/-- search_destinations (destinations.py lines 25-96): the query is
stripped, rejected when blank (422), wrapped in percent signs without
escaping, matched case-insensitively against name and the toggled fields,
counted for total independently of pagination, ordered by popularity desc
nulls last then name asc, and paginated. -/
def search_destinations (db : Db) (q : String) (limit offset : Nat)
    (include_country include_city : Bool) :
    ApiM (ListResponse DestinationSearchResult) :=
  let q_stripped := pyStrip q
  if q_stripped == "" then
    .error .validationFailure
  else
    let pattern := "%" ++ q_stripped ++ "%"
    let rows := db.destinations.filter (dest_matches pattern include_country include_city)
    .ok { total := rows.length
          limit := limit
          offset := offset
          items := (paginate limit offset (order_by dest_le rows)).map to_search_result }

/-! ## Concrete stores used by the closed theorems -/

/-- A store with two trips and one itinerary item, note and reminder, all
owned by trip 1. -/
def dbC1 : Db :=
  ⟨[⟨1, "Alps", none, none, 0⟩, ⟨2, "Baltic", none, none, 0⟩], [],
   [⟨10, 1, 1, "Hike", none, none, none, none⟩],
   [⟨11, 1, "packing list", 0⟩],
   [⟨12, 1, "book hotel", 9, 0⟩]⟩

/-- A store whose trip and itinerary item both span times 0 to 10. -/
def dbC2 : Db :=
  ⟨[⟨1, "Japan", some 0, some 10, 0⟩], [],
   [⟨10, 1, 1, "Arrive", none, some 0, some 10, none⟩], [], []⟩

/-- A store with one trip, used by the blank-create instances. -/
def dbC3 : Db := ⟨[⟨1, "T", none, none, 0⟩], [], [], [], []⟩

/-- A store with one trip, used by the note-trimming counterexample. -/
def dbC4 : Db := ⟨[⟨1, "T", none, none, 0⟩], [], [], [], []⟩

/-- A store with one row of each child entity, used to instantiate the
trimming and partial-update theorems. -/
def dbC4w : Db :=
  ⟨[⟨1, "T", some 1, some 9, 0⟩], [],
   [⟨10, 1, 1, "Old", some "d", some 2, some 3, some 20⟩],
   [⟨11, 1, "old content", 0⟩],
   [⟨12, 1, "old message", 5, 0⟩]⟩

/-- A store with three itinerary items and two destinations, used to
instantiate the pagination theorem. -/
def dbC5 : Db :=
  ⟨[⟨1, "T", none, none, 0⟩],
   [⟨20, "Paris", some "France", some "Paris", none, some 5⟩,
    ⟨21, "Sparta", some "Greece", none, none, none⟩],
   [⟨10, 1, 1, "A", none, none, none, none⟩,
    ⟨11, 1, 2, "B", none, none, none, none⟩,
    ⟨12, 1, 1, "C", none, some 3, none, none⟩],
   [⟨13, 1, "n1", 1⟩, ⟨14, 1, "n2", 2⟩],
   [⟨15, 1, "m", 4, 0⟩]⟩

/-- Two distinct trips agreeing on both sortable columns. -/
def tC6a : Trip := ⟨1, "same", none, none, 7⟩

/-- The second of the two tied trips. -/
def tC6b : Trip := ⟨2, "same", none, none, 7⟩

/-- The tied pair in one underlying order. -/
def dbC6A : Db := ⟨[tC6a, tC6b], [], [], [], []⟩

/-- The same rows in the other underlying order. -/
def dbC6B : Db := ⟨[tC6b, tC6a], [], [], [], []⟩

/-- Two trips each owning children, plus a destination, used to instantiate
the cascading-delete theorem. -/
def dbC7 : Db :=
  ⟨[⟨1, "T1", none, none, 0⟩, ⟨2, "T2", none, none, 0⟩],
   [⟨20, "D", none, none, none, none⟩],
   [⟨10, 1, 1, "a", none, none, none, none⟩, ⟨11, 2, 1, "b", none, none, none, none⟩],
   [⟨12, 1, "n1", 0⟩, ⟨13, 2, "n2", 0⟩],
   [⟨14, 1, "r1", 1, 0⟩, ⟨15, 2, "r2", 2, 0⟩]⟩

/-- The store delete_trip dbC7 1 commits: trip 1 and its children gone,
trip 2 and its children and the destination kept. -/
def db2C7val : Db :=
  ⟨[⟨2, "T2", none, none, 0⟩], [⟨20, "D", none, none, none, none⟩],
   [⟨11, 2, 1, "b", none, none, none, none⟩], [⟨13, 2, "n2", 0⟩],
   [⟨15, 2, "r2", 2, 0⟩]⟩

/-- A destination whose name matches the LIKE fragment a_c but does not
contain the literal text a_c. -/
def dbC8 : Db := ⟨[], [⟨30, "axc", none, none, none, none⟩], [], [], []⟩

/-- A destination matching the query par only through its city. -/
def parisDest : Destination :=
  ⟨31, "City of Light", some "France", some "Paris", none, some 9⟩

/-- Store holding only parisDest. -/
def dbC8p : Db := ⟨[], [parisDest], [], [], []⟩

/-- A store with every optional field populated, used to instantiate the
partial-update frame theorem. -/
def dbC9 : Db :=
  ⟨[⟨1, "T", some 1, some 9, 0⟩], [],
   [⟨10, 1, 1, "t", some "d", some 2, some 3, some 20⟩],
   [⟨11, 1, "c", 0⟩],
   [⟨12, 1, "m", 5, 0⟩]⟩

/-- A store that has no trip with id 5. -/
def dbC10 : Db := ⟨[⟨1, "T", none, none, 0⟩], [], [], [], []⟩

end TravelPlanner

deriving instance DecidableEq for Except

namespace TravelPlanner

/-! ## Helper lemmas -/

/-- The doubly-filtered itinerary lookup fails when no row carries both the
requested id and the path trip id. -/
theorem find_scoped_item_none (db : Db) (tid iid : Uuid)
    (h : ∀ it ∈ db.items, it.id = iid → it.trip_id ≠ tid) :
    find_scoped_item db tid iid = none := by
  apply List.find?_eq_none.mpr
  intro it hit
  simp only [Bool.and_eq_true, beq_iff_eq, not_and]
  exact fun h1 h2 => h it hit h1 h2

/-- The doubly-filtered note lookup fails when no row carries both ids. -/
theorem find_scoped_note_none (db : Db) (tid nid : Uuid)
    (h : ∀ n ∈ db.notes, n.id = nid → n.trip_id ≠ tid) :
    find_scoped_note db tid nid = none := by
  apply List.find?_eq_none.mpr
  intro n hn
  simp only [Bool.and_eq_true, beq_iff_eq, not_and]
  exact fun h1 h2 => h n hn h1 h2

/-- The doubly-filtered reminder lookup fails when no row carries both
ids. -/
theorem find_scoped_reminder_none (db : Db) (tid rid : Uuid)
    (h : ∀ r ∈ db.reminders, r.id = rid → r.trip_id ≠ tid) :
    find_scoped_reminder db tid rid = none := by
  apply List.find?_eq_none.mpr
  intro r hr
  simp only [Bool.and_eq_true, beq_iff_eq, not_and]
  exact fun h1 h2 => h r hr h1 h2

/-- A page never exceeds the limit. -/
theorem paginate_length_le {α : Type} (limit offset : Nat) (rows : List α) :
    (paginate limit offset rows).length ≤ limit := by
  simp only [paginate, List.length_take]
  exact min_le_left _ _

/-! ## C1 -/

/-- C1: for itinerary items, notes and reminders, a get, update or delete
through a trip path whose trip id is not the owning trip id of any row with
the requested entity id answers NotFound (404): the lookup filters by both
the entity id and the trip id from the URL path, so an entity that exists
under another trip is not leaked. -/
theorem C1_cross_trip_scoping (db : Db) (tid iid nid rid : Uuid)
    (pI : ItineraryItemUpdate) (pN : NoteUpdate) (pR : ReminderUpdate)
    (hI : ∀ it ∈ db.items, it.id = iid → it.trip_id ≠ tid)
    (hN : ∀ n ∈ db.notes, n.id = nid → n.trip_id ≠ tid)
    (hR : ∀ r ∈ db.reminders, r.id = rid → r.trip_id ≠ tid) :
    get_itinerary_item db tid iid = .error .notFound ∧
    update_itinerary_item db tid iid pI = .error .notFound ∧
    delete_itinerary_item db tid iid = .error .notFound ∧
    get_note db tid nid = .error .notFound ∧
    update_note db tid nid pN = .error .notFound ∧
    delete_note db tid nid = .error .notFound ∧
    get_reminder db tid rid = .error .notFound ∧
    update_reminder db tid rid pR = .error .notFound ∧
    delete_reminder db tid rid = .error .notFound ∧
    statusCode .notFound = 404 := by
  have hI2 := find_scoped_item_none db tid iid hI
  have hN2 := find_scoped_note_none db tid nid hN
  have hR2 := find_scoped_reminder_none db tid rid hR
  unfold get_itinerary_item update_itinerary_item delete_itinerary_item
    get_note update_note delete_note get_reminder update_reminder delete_reminder
  cases hf : findTrip db tid <;>
    simp [hf, hI2, hN2, hR2, statusCode]

/-- Closed instance of C1: the children of trip 1 are all NotFound through
the path of the existing trip 2. -/
theorem C1_cross_trip_scoping_witness :
    get_itinerary_item dbC1 2 10 = .error .notFound ∧
    update_itinerary_item dbC1 2 10 ⟨none, none, none, none, none, none⟩ = .error .notFound ∧
    delete_itinerary_item dbC1 2 10 = .error .notFound ∧
    get_note dbC1 2 11 = .error .notFound ∧
    update_note dbC1 2 11 ⟨none⟩ = .error .notFound ∧
    delete_note dbC1 2 11 = .error .notFound ∧
    get_reminder dbC1 2 12 = .error .notFound ∧
    update_reminder dbC1 2 12 ⟨none, none⟩ = .error .notFound ∧
    delete_reminder dbC1 2 12 = .error .notFound ∧
    statusCode .notFound = 404 :=
  C1_cross_trip_scoping dbC1 2 10 11 12
    ⟨none, none, none, none, none, none⟩ ⟨none⟩ ⟨none, none⟩
    (by decide) (by decide) (by decide)

/-! ## C10 -/

/-- C10: every nested-resource handler resolves the parent trip before any
payload validation, so a request addressed to a nonexistent trip id answers
NotFound (404) for every payload, including payloads with a mismatched
trip_id, blank text or inconsistent times; a 422 can only arise when the
parent trip exists. -/
theorem C10_parent_checked_first (db : Db) (tid new_id : Uuid) (now : Int)
    (cI : ItineraryItemCreate) (cN : NoteCreate) (cR : ReminderCreate)
    (pI : ItineraryItemUpdate) (pN : NoteUpdate) (pR : ReminderUpdate)
    (iid nid rid : Uuid) (limit offset : Nat)
    (h : findTrip db tid = none) :
    create_itinerary_item db tid cI new_id = .error .notFound ∧
    create_note db tid cN new_id now = .error .notFound ∧
    create_reminder db tid cR new_id now = .error .notFound ∧
    update_itinerary_item db tid iid pI = .error .notFound ∧
    update_note db tid nid pN = .error .notFound ∧
    update_reminder db tid rid pR = .error .notFound ∧
    get_itinerary_item db tid iid = .error .notFound ∧
    get_note db tid nid = .error .notFound ∧
    get_reminder db tid rid = .error .notFound ∧
    delete_itinerary_item db tid iid = .error .notFound ∧
    delete_note db tid nid = .error .notFound ∧
    delete_reminder db tid rid = .error .notFound ∧
    list_itinerary_items db tid limit offset = .error .notFound ∧
    list_notes db tid limit offset = .error .notFound ∧
    list_reminders db tid limit offset = .error .notFound ∧
    statusCode .notFound = 404 := by
  unfold create_itinerary_item create_note create_reminder
    update_itinerary_item update_note update_reminder
    get_itinerary_item get_note get_reminder
    delete_itinerary_item delete_note delete_reminder
    list_itinerary_items list_notes list_reminders
  simp [h, statusCode]

/-- Closed instance of C10: against the missing trip 5, creates whose
payload is itself invalid (mismatched trip_id, blank text, end before
start) still answer NotFound, not ValidationFailure. -/
theorem C10_parent_checked_first_witness :
    create_itinerary_item dbC10 5 ⟨9, 1, " ", none, some 4, some 2, none⟩ 90 = .error .notFound ∧
    create_note dbC10 5 ⟨9, "  "⟩ 90 0 = .error .notFound ∧
    create_reminder dbC10 5 ⟨9, " ", 0⟩ 90 0 = .error .notFound ∧
    update_itinerary_item dbC10 5 10 ⟨none, some " ", none, some 4, some 2, none⟩ = .error .notFound ∧
    update_note dbC10 5 11 ⟨some " "⟩ = .error .notFound ∧
    update_reminder dbC10 5 12 ⟨some " ", none⟩ = .error .notFound ∧
    get_itinerary_item dbC10 5 10 = .error .notFound ∧
    get_note dbC10 5 11 = .error .notFound ∧
    get_reminder dbC10 5 12 = .error .notFound ∧
    delete_itinerary_item dbC10 5 10 = .error .notFound ∧
    delete_note dbC10 5 11 = .error .notFound ∧
    delete_reminder dbC10 5 12 = .error .notFound ∧
    list_itinerary_items dbC10 5 50 0 = .error .notFound ∧
    list_notes dbC10 5 50 0 = .error .notFound ∧
    list_reminders dbC10 5 50 0 = .error .notFound ∧
    statusCode .notFound = 404 :=
  C10_parent_checked_first dbC10 5 90 0
    ⟨9, 1, " ", none, some 4, some 2, none⟩ ⟨9, "  "⟩ ⟨9, " ", 0⟩
    ⟨none, some " ", none, some 4, some 2, none⟩ ⟨some " "⟩ ⟨some " ", none⟩
    10 11 12 50 0 (by decide)

/-! ## C2 -/

/-- C2: the end-not-before-start invariant is re-checked on the merged
record, so a partial update making the merged pair inconsistent is rejected
with ValidationFailure (422) and produces no state change, and a create
supplying both fields with end before start is rejected the same way.  The
merged value of a field is the payload value when provided, the stored value
otherwise (merge_opt), exactly as the handlers assign them. -/
theorem C2_merged_temporal_invariant (db : Db) (tid iid new_id : Uuid) (now : Int)
    (pT : TripUpdate) (pI : ItineraryItemUpdate)
    (cT : TripCreate) (cI : ItineraryItemCreate)
    (t : Trip) (it : ItineraryItem) (s1 e1 s2 e2 s3 e3 s4 e4 : Int)
    (htrip : findTrip db tid = some t)
    (hts : merge_opt pT.start_date t.start_date = some s1)
    (hte : merge_opt pT.end_date t.end_date = some e1)
    (hlt1 : e1 < s1)
    (hitem : find_scoped_item db tid iid = some it)
    (his : merge_opt pI.start_time it.start_time = some s2)
    (hie : merge_opt pI.end_time it.end_time = some e2)
    (hlt2 : e2 < s2)
    (hcs : cT.start_date = some s3) (hce : cT.end_date = some e3) (hlt3 : e3 < s3)
    (hcs4 : cI.start_time = some s4) (hce4 : cI.end_time = some e4) (hlt4 : e4 < s4) :
    update_trip db tid pT = .error .validationFailure ∧
    update_itinerary_item db tid iid pI = .error .validationFailure ∧
    create_trip db cT new_id now = .error .validationFailure ∧
    create_itinerary_item db tid cI new_id = .error .validationFailure ∧
    db_after db (update_trip db tid pT) = db ∧
    db_after db (update_itinerary_item db tid iid pI) = db ∧
    db_after db (create_trip db cT new_id now) = db ∧
    db_after db (create_itinerary_item db tid cI new_id) = db ∧
    statusCode .validationFailure = 422 := by
  have hut : update_trip db tid pT = .error .validationFailure := by
    unfold update_trip
    by_cases hb : trip_update_name_blank pT = true
    · simp [hb]
    · simp only [Bool.not_eq_true] at hb
      simp only [hb, Bool.false_eq_true, if_false, htrip]
      have hbad : end_before_start (merge_opt pT.start_date t.start_date)
          (merge_opt pT.end_date t.end_date) = true := by
        rw [hts, hte]
        simpa [end_before_start] using hlt1
      simp [hbad]
  have hui : update_itinerary_item db tid iid pI = .error .validationFailure := by
    unfold update_itinerary_item
    rw [htrip, hitem]
    by_cases hb : (match pI.title with
        | some n => pyStrip n == ""
        | none => false) = true
    · simp [hb]
    · simp only [Bool.not_eq_true] at hb
      simp only [hb, Bool.false_eq_true, if_false]
      have hbad : end_before_start (merge_opt pI.start_time it.start_time)
          (merge_opt pI.end_time it.end_time) = true := by
        rw [his, hie]
        simpa [end_before_start] using hlt2
      simp [hbad]
  have hct : create_trip db cT new_id now = .error .validationFailure := by
    unfold create_trip
    have hbad : end_before_start cT.start_date cT.end_date = true := by
      rw [hcs, hce]
      simpa [end_before_start] using hlt3
    simp [hbad]
  have hci : create_itinerary_item db tid cI new_id = .error .validationFailure := by
    unfold create_itinerary_item
    rw [htrip]
    by_cases hm : (cI.trip_id == tid) = true
    · have hbad : end_before_start cI.start_time cI.end_time = true := by
        rw [hcs4, hce4]
        simpa [end_before_start] using hlt4
      simp [hm, hbad]
    · simp [hm]
  refine ⟨hut, hui, hct, hci, ?_, ?_, ?_, ?_, rfl⟩
  · rw [hut]; rfl
  · rw [hui]; rfl
  · rw [hct]; rfl
  · rw [hci]; rfl

/-- Closed instance of C2: on a trip and an item both spanning 0 to 10, a
single-field update moving only the end below the stored start is rejected,
as are creates carrying an inconsistent pair. -/
theorem C2_merged_temporal_invariant_witness :
    update_trip dbC2 1 ⟨none, none, some (-5)⟩ = .error .validationFailure ∧
    update_itinerary_item dbC2 1 10 ⟨none, none, none, none, some (-5), none⟩ =
      .error .validationFailure ∧
    create_trip dbC2 ⟨"N", some 5, some 1⟩ 50 0 = .error .validationFailure ∧
    create_itinerary_item dbC2 1 ⟨1, 1, "T", none, some 5, some 1, none⟩ 51 =
      .error .validationFailure ∧
    db_after dbC2 (update_trip dbC2 1 ⟨none, none, some (-5)⟩) = dbC2 ∧
    db_after dbC2 (update_itinerary_item dbC2 1 10
      ⟨none, none, none, none, some (-5), none⟩) = dbC2 ∧
    db_after dbC2 (create_trip dbC2 ⟨"N", some 5, some 1⟩ 50 0) = dbC2 ∧
    db_after dbC2 (create_itinerary_item dbC2 1
      ⟨1, 1, "T", none, some 5, some 1, none⟩ 51) = dbC2 ∧
    statusCode .validationFailure = 422 :=
  C2_merged_temporal_invariant dbC2 1 10 50 0
    ⟨none, none, some (-5)⟩ ⟨none, none, none, none, some (-5), none⟩
    ⟨"N", some 5, some 1⟩ ⟨1, 1, "T", none, some 5, some 1, none⟩
    ⟨1, "Japan", some 0, some 10, 0⟩ ⟨10, 1, 1, "Arrive", none, some 0, some 10, none⟩
    0 (-5) 0 (-5) 5 1 5 1
    (by decide) (by decide) (by decide) (by decide)
    (by decide) (by decide) (by decide) (by decide)
    (by decide) (by decide) (by decide) (by decide) (by decide) (by decide)

/-! ## C3 -/

/-- C3 (divergence): the claim says every create of a required identity text
field rejects a blank-after-trim value with 422 and persists nothing.  The
code does so for Note.content and Reminder.message, but TripCreate and
ItineraryItemCreate carry no non-blank validator and create_trip /
create_itinerary_item perform no blank check, so a whitespace-only name or
title is accepted with 201 and persisted as the empty string.  The update
paths of the very same fields do reject blank values (TripUpdate via its
_name_not_blank validator, update_itinerary_item inline), and the spec
states the non-blank invariant for both fields, so the create paths
contradict the intent enforced everywhere else.  This theorem evaluates the
handlers at the failing inputs: the first two conjuncts show the accepting
creates, the remaining ones the rejecting paths. -/
theorem C3_blank_create_divergence :
    create_trip dbC3 ⟨"   ", none, none⟩ 7 5 =
      .ok ({ dbC3 with trips := dbC3.trips ++ [⟨7, "", none, none, 5⟩] },
           ⟨7, "", none, none, 5⟩) ∧
    create_itinerary_item dbC3 1 ⟨1, 1, " ", none, none, none, none⟩ 8 =
      .ok ({ dbC3 with items := [⟨8, 1, 1, "", none, none, none, none⟩] },
           ⟨8, 1, 1, "", none, none, none, none⟩) ∧
    create_note dbC3 1 ⟨1, "   "⟩ 9 5 = .error .validationFailure ∧
    create_reminder dbC3 1 ⟨1, "   ", 0⟩ 9 5 = .error .validationFailure ∧
    update_trip dbC3 1 ⟨some "   ", none, none⟩ = .error .validationFailure := by
  decide

/-! ## Inversion lemmas for successful creates and updates -/

/-- A successful create_trip appends exactly the row built from the stripped
name, the payload dates and the request timestamp. -/
theorem create_trip_ok_inv (db : Db) (c : TripCreate) (new_id : Uuid) (now : Int)
    (db1 : Db) (t1 : Trip) (h : create_trip db c new_id now = .ok (db1, t1)) :
    t1 = ⟨new_id, pyStrip c.name, c.start_date, c.end_date, now⟩ ∧
    db1 = { db with trips := db.trips ++ [t1] } := by
  unfold create_trip at h
  by_cases hb : end_before_start c.start_date c.end_date = true
  · simp [hb] at h
  · simp only [Bool.not_eq_true] at hb
    simp only [hb, Bool.false_eq_true, if_false, Except.ok.injEq, Prod.mk.injEq] at h
    obtain ⟨hdb, ht⟩ := h
    subst ht
    exact ⟨rfl, hdb.symm⟩

/-- A successful update_trip merges exactly the provided fields onto the
stored row and writes the merged row back in place. -/
theorem update_trip_ok_inv (db : Db) (tid : Uuid) (p : TripUpdate)
    (db2 : Db) (t2 : Trip) (h : update_trip db tid p = .ok (db2, t2)) :
    ∃ t, findTrip db tid = some t ∧
      t2 = { t with
             name := merge_req (p.name.map pyStrip) t.name
             start_date := merge_opt p.start_date t.start_date
             end_date := merge_opt p.end_date t.end_date } ∧
      db2 = { db with trips := db.trips.map (fun u => if u.id == tid then t2 else u) } := by
  unfold update_trip at h
  split at h
  · exact absurd h (by simp)
  · split at h
    · exact absurd h (by simp)
    · rename_i t hfind
      by_cases hb : end_before_start (merge_opt p.start_date t.start_date)
          (merge_opt p.end_date t.end_date) = true
      · simp [hb] at h
      · simp only [Bool.not_eq_true] at hb
        simp only [hb, Bool.false_eq_true, if_false, Except.ok.injEq, Prod.mk.injEq] at h
        obtain ⟨hdb, ht⟩ := h
        subst ht
        exact ⟨t, hfind, rfl, hdb.symm⟩

/-- A successful create_itinerary_item appends exactly the row built from
the path trip id, the payload fields and the stripped title. -/
theorem create_itinerary_item_ok_inv (db : Db) (tid : Uuid)
    (c : ItineraryItemCreate) (new_id : Uuid)
    (db1 : Db) (t1 : ItineraryItem)
    (h : create_itinerary_item db tid c new_id = .ok (db1, t1)) :
    t1 = ⟨new_id, tid, c.day, pyStrip c.title, c.description,
          c.start_time, c.end_time, c.destination_id⟩ ∧
    db1 = { db with items := db.items ++ [t1] } := by
  unfold create_itinerary_item at h
  split at h
  · exact absurd h (by simp)
  · split at h
    · exact absurd h (by simp)
    · split at h
      · exact absurd h (by simp)
      · simp only [Except.ok.injEq, Prod.mk.injEq] at h
        obtain ⟨hdb, ht⟩ := h
        subst ht
        exact ⟨rfl, hdb.symm⟩

/-- A successful update_itinerary_item merges exactly the provided fields
onto the stored row (title stripped) and writes the merged row back in
place. -/
theorem update_itinerary_item_ok_inv (db : Db) (tid iid : Uuid)
    (p : ItineraryItemUpdate) (db2 : Db) (t2 : ItineraryItem)
    (h : update_itinerary_item db tid iid p = .ok (db2, t2)) :
    ∃ it, find_scoped_item db tid iid = some it ∧
      t2 = { it with
             day := merge_req p.day it.day
             title := merge_req (p.title.map pyStrip) it.title
             description := merge_opt p.description it.description
             start_time := merge_opt p.start_time it.start_time
             end_time := merge_opt p.end_time it.end_time
             destination_id := merge_opt p.destination_id it.destination_id } ∧
      db2 = { db with items := db.items.map (fun u => if u.id == iid then t2 else u) } := by
  unfold update_itinerary_item at h
  split at h
  · exact absurd h (by simp)
  · split at h
    · exact absurd h (by simp)
    · rename_i it hfind
      split at h
      · exact absurd h (by simp)
      · by_cases hb : end_before_start (merge_opt p.start_time it.start_time)
            (merge_opt p.end_time it.end_time) = true
        · simp [hb] at h
        · simp only [Bool.not_eq_true] at hb
          simp only [hb, Bool.false_eq_true, if_false, Except.ok.injEq, Prod.mk.injEq] at h
          obtain ⟨hdb, ht⟩ := h
          subst ht
          exact ⟨it, hfind, rfl, hdb.symm⟩

/-- A successful create_note appends exactly the row holding the verbatim
payload content. -/
theorem create_note_ok_inv (db : Db) (tid : Uuid) (c : NoteCreate)
    (new_id : Uuid) (now : Int) (db1 : Db) (t1 : Note)
    (h : create_note db tid c new_id now = .ok (db1, t1)) :
    t1 = ⟨new_id, tid, c.content, now⟩ ∧
    db1 = { db with notes := db.notes ++ [t1] } := by
  unfold create_note at h
  split at h
  · exact absurd h (by simp)
  · split at h
    · exact absurd h (by simp)
    · split at h
      · exact absurd h (by simp)
      · simp only [Except.ok.injEq, Prod.mk.injEq] at h
        obtain ⟨hdb, ht⟩ := h
        subst ht
        exact ⟨rfl, hdb.symm⟩

/-- A successful update_note replaces the content with the verbatim payload
content when provided and writes the row back in place. -/
theorem update_note_ok_inv (db : Db) (tid nid : Uuid) (p : NoteUpdate)
    (db2 : Db) (t2 : Note) (h : update_note db tid nid p = .ok (db2, t2)) :
    ∃ n, find_scoped_note db tid nid = some n ∧
      t2 = { n with content := merge_req p.content n.content } ∧
      db2 = { db with notes := db.notes.map (fun u => if u.id == nid then t2 else u) } := by
  unfold update_note at h
  split at h
  · exact absurd h (by simp)
  · split at h
    · exact absurd h (by simp)
    · rename_i n hfind
      split at h
      · exact absurd h (by simp)
      · simp only [Except.ok.injEq, Prod.mk.injEq] at h
        obtain ⟨hdb, ht⟩ := h
        subst ht
        exact ⟨n, hfind, rfl, hdb.symm⟩

/-- A successful create_reminder appends exactly the row holding the
stripped message. -/
theorem create_reminder_ok_inv (db : Db) (tid : Uuid) (c : ReminderCreate)
    (new_id : Uuid) (now : Int) (db1 : Db) (t1 : Reminder)
    (h : create_reminder db tid c new_id now = .ok (db1, t1)) :
    t1 = ⟨new_id, tid, pyStrip c.message, c.remind_at, now⟩ ∧
    db1 = { db with reminders := db.reminders ++ [t1] } := by
  unfold create_reminder at h
  split at h
  · exact absurd h (by simp)
  · split at h
    · exact absurd h (by simp)
    · split at h
      · exact absurd h (by simp)
      · simp only [Except.ok.injEq, Prod.mk.injEq] at h
        obtain ⟨hdb, ht⟩ := h
        subst ht
        exact ⟨rfl, hdb.symm⟩

/-- A successful update_reminder merges the stripped message and the
remind_at when provided and writes the row back in place. -/
theorem update_reminder_ok_inv (db : Db) (tid rid : Uuid) (p : ReminderUpdate)
    (db2 : Db) (t2 : Reminder)
    (h : update_reminder db tid rid p = .ok (db2, t2)) :
    ∃ r, find_scoped_reminder db tid rid = some r ∧
      t2 = { r with
             message := merge_req (p.message.map pyStrip) r.message
             remind_at := merge_req p.remind_at r.remind_at } ∧
      db2 = { db with reminders := db.reminders.map (fun u => if u.id == rid then t2 else u) } := by
  unfold update_reminder at h
  split at h
  · exact absurd h (by simp)
  · split at h
    · exact absurd h (by simp)
    · rename_i r hfind
      split at h
      · exact absurd h (by simp)
      · simp only [Except.ok.injEq, Prod.mk.injEq] at h
        obtain ⟨hdb, ht⟩ := h
        subst ht
        exact ⟨r, hfind, rfl, hdb.symm⟩

/-! ## C4 -/

/-- C4 (counterexample): the claim says every successfully stored text
identity/content field equals the trimmed payload value.  create_note
stores the payload content verbatim (notes.py line 150 uses payload.content,
stripping only inside the blank test), so a content with surrounding
whitespace is stored and returned unstripped, which differs from its
trimmed form. -/
theorem C4_note_content_untrimmed :
    create_note dbC4 1 ⟨1, " keep "⟩ 9 5 =
      .ok ({ dbC4 with notes := [⟨9, 1, " keep ", 5⟩] }, ⟨9, 1, " keep ", 5⟩) ∧
    update_note { dbC4 with notes := [⟨9, 1, " keep ", 5⟩] } 1 9 ⟨some " kept "⟩ =
      .ok ({ dbC4 with notes := [⟨9, 1, " kept ", 5⟩] }, ⟨9, 1, " kept ", 5⟩) ∧
    pyStrip " keep " = "keep" ∧
    (" keep " : String) ≠ "keep" ∧
    pyStrip " kept " = "kept" ∧
    (" kept " : String) ≠ "kept" := by
  decide

/-- C4 (amended): for every successful create or update, Trip.name,
ItineraryItem.title and Reminder.message are stored and returned trimmed of
surrounding whitespace; Note.content is stored and returned verbatim (the
blank check strips a copy, the stored value is untouched).  The returned
record is the row written, by the inversion lemmas above. -/
theorem C4_trimmed_storage_amended
    (db : Db) (tid iid nid rid new_id : Uuid) (now : Int)
    (cT : TripCreate) (pT : TripUpdate) (nT : String)
    (cI : ItineraryItemCreate) (pI : ItineraryItemUpdate) (nI : String)
    (cR : ReminderCreate) (pR : ReminderUpdate) (nR : String)
    (cN : NoteCreate) (pN : NoteUpdate) (nN : String)
    (db1 db2 db3 db4 db5 db6 db7 db8 : Db)
    (t1 t2 : Trip) (t3 t4 : ItineraryItem) (t5 t6 : Reminder) (t7 t8 : Note)
    (h1 : create_trip db cT new_id now = .ok (db1, t1))
    (h2 : update_trip db tid pT = .ok (db2, t2)) (h2n : pT.name = some nT)
    (h3 : create_itinerary_item db tid cI new_id = .ok (db3, t3))
    (h4 : update_itinerary_item db tid iid pI = .ok (db4, t4)) (h4t : pI.title = some nI)
    (h5 : create_reminder db tid cR new_id now = .ok (db5, t5))
    (h6 : update_reminder db tid rid pR = .ok (db6, t6)) (h6m : pR.message = some nR)
    (h7 : create_note db tid cN new_id now = .ok (db7, t7))
    (h8 : update_note db tid nid pN = .ok (db8, t8)) (h8c : pN.content = some nN) :
    t1.name = pyStrip cT.name ∧ t2.name = pyStrip nT ∧
    t3.title = pyStrip cI.title ∧ t4.title = pyStrip nI ∧
    t5.message = pyStrip cR.message ∧ t6.message = pyStrip nR ∧
    t7.content = cN.content ∧ t8.content = nN := by
  obtain ⟨e1, -⟩ := create_trip_ok_inv db cT new_id now db1 t1 h1
  obtain ⟨t, -, e2, -⟩ := update_trip_ok_inv db tid pT db2 t2 h2
  obtain ⟨e3, -⟩ := create_itinerary_item_ok_inv db tid cI new_id db3 t3 h3
  obtain ⟨it, -, e4, -⟩ := update_itinerary_item_ok_inv db tid iid pI db4 t4 h4
  obtain ⟨e5, -⟩ := create_reminder_ok_inv db tid cR new_id now db5 t5 h5
  obtain ⟨r, -, e6, -⟩ := update_reminder_ok_inv db tid rid pR db6 t6 h6
  obtain ⟨e7, -⟩ := create_note_ok_inv db tid cN new_id now db7 t7 h7
  obtain ⟨n, -, e8, -⟩ := update_note_ok_inv db tid nid pN db8 t8 h8
  subst e1 e3 e5 e7
  refine ⟨rfl, ?_, rfl, ?_, rfl, ?_, rfl, ?_⟩
  · rw [e2]; simp [merge_req, h2n]
  · rw [e4]; simp [merge_req, h4t]
  · rw [e6]; simp [merge_req, h6m]
  · rw [e8]; simp [merge_req, h8c]

/-- Closed instance of the amended C4 on a store with one row of each
entity. -/
theorem C4_trimmed_storage_amended_witness :
    (⟨40, "Trip", none, none, 6⟩ : Trip).name = pyStrip " Trip " ∧
    (⟨1, "NewName", some 1, some 9, 0⟩ : Trip).name = pyStrip " NewName " ∧
    (⟨40, 1, 2, "Title", none, none, none, none⟩ : ItineraryItem).title = pyStrip " Title " ∧
    (⟨10, 1, 1, "New", some "d", some 2, some 3, some 20⟩ : ItineraryItem).title = pyStrip " New " ∧
    (⟨40, 1, "R", 7, 6⟩ : Reminder).message = pyStrip " R " ∧
    (⟨12, 1, "M", 5, 0⟩ : Reminder).message = pyStrip " M " ∧
    (⟨40, 1, " keep ", 6⟩ : Note).content = (⟨1, " keep "⟩ : NoteCreate).content ∧
    (⟨11, 1, " kept ", 0⟩ : Note).content = " kept " :=
  C4_trimmed_storage_amended dbC4w 1 10 11 12 40 6
    ⟨" Trip ", none, none⟩ ⟨some " NewName ", none, none⟩ " NewName "
    ⟨1, 2, " Title ", none, none, none, none⟩
    ⟨none, some " New ", none, none, none, none⟩ " New "
    ⟨1, " R ", 7⟩ ⟨some " M ", none⟩ " M "
    ⟨1, " keep "⟩ ⟨some " kept "⟩ " kept "
    ⟨[⟨1, "T", some 1, some 9, 0⟩, ⟨40, "Trip", none, none, 6⟩], [],
     [⟨10, 1, 1, "Old", some "d", some 2, some 3, some 20⟩],
     [⟨11, 1, "old content", 0⟩], [⟨12, 1, "old message", 5, 0⟩]⟩
    ⟨[⟨1, "NewName", some 1, some 9, 0⟩], [],
     [⟨10, 1, 1, "Old", some "d", some 2, some 3, some 20⟩],
     [⟨11, 1, "old content", 0⟩], [⟨12, 1, "old message", 5, 0⟩]⟩
    ⟨[⟨1, "T", some 1, some 9, 0⟩], [],
     [⟨10, 1, 1, "Old", some "d", some 2, some 3, some 20⟩,
      ⟨40, 1, 2, "Title", none, none, none, none⟩],
     [⟨11, 1, "old content", 0⟩], [⟨12, 1, "old message", 5, 0⟩]⟩
    ⟨[⟨1, "T", some 1, some 9, 0⟩], [],
     [⟨10, 1, 1, "New", some "d", some 2, some 3, some 20⟩],
     [⟨11, 1, "old content", 0⟩], [⟨12, 1, "old message", 5, 0⟩]⟩
    ⟨[⟨1, "T", some 1, some 9, 0⟩], [],
     [⟨10, 1, 1, "Old", some "d", some 2, some 3, some 20⟩],
     [⟨11, 1, "old content", 0⟩],
     [⟨12, 1, "old message", 5, 0⟩, ⟨40, 1, "R", 7, 6⟩]⟩
    ⟨[⟨1, "T", some 1, some 9, 0⟩], [],
     [⟨10, 1, 1, "Old", some "d", some 2, some 3, some 20⟩],
     [⟨11, 1, "old content", 0⟩], [⟨12, 1, "M", 5, 0⟩]⟩
    ⟨[⟨1, "T", some 1, some 9, 0⟩], [],
     [⟨10, 1, 1, "Old", some "d", some 2, some 3, some 20⟩],
     [⟨11, 1, "old content", 0⟩, ⟨40, 1, " keep ", 6⟩],
     [⟨12, 1, "old message", 5, 0⟩]⟩
    ⟨[⟨1, "T", some 1, some 9, 0⟩], [],
     [⟨10, 1, 1, "Old", some "d", some 2, some 3, some 20⟩],
     [⟨11, 1, " kept ", 0⟩], [⟨12, 1, "old message", 5, 0⟩]⟩
    ⟨40, "Trip", none, none, 6⟩ ⟨1, "NewName", some 1, some 9, 0⟩
    ⟨40, 1, 2, "Title", none, none, none, none⟩
    ⟨10, 1, 1, "New", some "d", some 2, some 3, some 20⟩
    ⟨40, 1, "R", 7, 6⟩ ⟨12, 1, "M", 5, 0⟩
    ⟨40, 1, " keep ", 6⟩ ⟨11, 1, " kept ", 0⟩
    (by decide) (by decide) (by decide) (by decide) (by decide) (by decide)
    (by decide) (by decide) (by decide) (by decide) (by decide) (by decide)

/-! ## C9 -/

/-- A merged optional column is empty only when it was absent from the
payload and already empty in the stored row: partial update cannot clear an
optional field. -/
theorem merge_opt_none_iff {α : Type} (new old : Option α) :
    merge_opt new old = none ↔ new = none ∧ old = none := by
  cases new <;> simp [merge_opt]

/-- Frame facts of a successful trip update: absent fields keep their
stored value, identity and creation time never change, optional fields are
never cleared, and the returned row is in the new store. -/
theorem trip_update_frame (db : Db) (tid : Uuid) (p : TripUpdate)
    (db2 : Db) (t2 t : Trip)
    (hT : findTrip db tid = some t)
    (h : update_trip db tid p = .ok (db2, t2)) :
    (p.name = none → t2.name = t.name) ∧
    (p.start_date = none → t2.start_date = t.start_date) ∧
    (p.end_date = none → t2.end_date = t.end_date) ∧
    t2.id = t.id ∧ t2.created_at = t.created_at ∧
    (t2.start_date = none → t.start_date = none) ∧
    (t2.end_date = none → t.end_date = none) ∧
    t2 ∈ db2.trips := by
  obtain ⟨t', hT', e2, edb⟩ := update_trip_ok_inv db tid p db2 t2 h
  rw [hT] at hT'
  obtain rfl := Option.some.inj hT'
  subst e2
  subst edb
  have hT0 : db.trips.find? (fun u => u.id == tid) = some t := hT
  have hmem : t ∈ db.trips := List.mem_of_find?_eq_some hT0
  have hpred := List.find?_some hT0
  refine ⟨fun h0 => by simp [h0, merge_req],
          fun h0 => by simp [h0, merge_opt],
          fun h0 => by simp [h0, merge_opt], rfl, rfl, ?_, ?_, ?_⟩
  · intro h0
    exact ((merge_opt_none_iff p.start_date t.start_date).mp h0).2
  · intro h0
    exact ((merge_opt_none_iff p.end_date t.end_date).mp h0).2
  · exact List.mem_map.mpr ⟨t, hmem, by simp [hpred]⟩

/-- Frame facts of a successful itinerary item update. -/
theorem itinerary_update_frame (db : Db) (tid iid : Uuid)
    (p : ItineraryItemUpdate) (db4 : Db) (t4 it : ItineraryItem)
    (hI : find_scoped_item db tid iid = some it)
    (h : update_itinerary_item db tid iid p = .ok (db4, t4)) :
    (p.day = none → t4.day = it.day) ∧
    (p.title = none → t4.title = it.title) ∧
    (p.description = none → t4.description = it.description) ∧
    (p.start_time = none → t4.start_time = it.start_time) ∧
    (p.end_time = none → t4.end_time = it.end_time) ∧
    (p.destination_id = none → t4.destination_id = it.destination_id) ∧
    t4.id = it.id ∧ t4.trip_id = it.trip_id ∧
    (t4.description = none → it.description = none) ∧
    (t4.start_time = none → it.start_time = none) ∧
    (t4.end_time = none → it.end_time = none) ∧
    (t4.destination_id = none → it.destination_id = none) ∧
    t4 ∈ db4.items := by
  obtain ⟨it', hI', e4, edb⟩ := update_itinerary_item_ok_inv db tid iid p db4 t4 h
  rw [hI] at hI'
  obtain rfl := Option.some.inj hI'
  subst e4
  subst edb
  have hI0 : db.items.find? (fun u => u.id == iid && u.trip_id == tid) = some it := hI
  have hmem : it ∈ db.items := List.mem_of_find?_eq_some hI0
  have hpred := List.find?_some hI0
  simp only [Bool.and_eq_true] at hpred
  have hpred1 : (it.id == iid) = true := hpred.1
  refine ⟨fun h0 => by simp [h0, merge_req],
          fun h0 => by simp [h0, merge_req],
          fun h0 => by simp [h0, merge_opt],
          fun h0 => by simp [h0, merge_opt],
          fun h0 => by simp [h0, merge_opt],
          fun h0 => by simp [h0, merge_opt], rfl, rfl, ?_, ?_, ?_, ?_, ?_⟩
  · intro h0
    exact ((merge_opt_none_iff p.description it.description).mp h0).2
  · intro h0
    exact ((merge_opt_none_iff p.start_time it.start_time).mp h0).2
  · intro h0
    exact ((merge_opt_none_iff p.end_time it.end_time).mp h0).2
  · intro h0
    exact ((merge_opt_none_iff p.destination_id it.destination_id).mp h0).2
  · exact List.mem_map.mpr ⟨it, hmem, by simp [hpred1]⟩

/-- Frame facts of a successful note update. -/
theorem note_update_frame (db : Db) (tid nid : Uuid) (p : NoteUpdate)
    (db8 : Db) (t8 n : Note)
    (hN : find_scoped_note db tid nid = some n)
    (h : update_note db tid nid p = .ok (db8, t8)) :
    (p.content = none → t8.content = n.content) ∧
    t8.id = n.id ∧ t8.trip_id = n.trip_id ∧ t8.created_at = n.created_at ∧
    t8 ∈ db8.notes := by
  obtain ⟨n', hN', e8, edb⟩ := update_note_ok_inv db tid nid p db8 t8 h
  rw [hN] at hN'
  obtain rfl := Option.some.inj hN'
  subst e8
  subst edb
  have hN0 : db.notes.find? (fun u => u.id == nid && u.trip_id == tid) = some n := hN
  have hmem : n ∈ db.notes := List.mem_of_find?_eq_some hN0
  have hpred := List.find?_some hN0
  simp only [Bool.and_eq_true] at hpred
  have hpred1 : (n.id == nid) = true := hpred.1
  refine ⟨fun h0 => by simp [h0, merge_req], rfl, rfl, rfl, ?_⟩
  exact List.mem_map.mpr ⟨n, hmem, by simp [hpred1]⟩

/-- Frame facts of a successful reminder update. -/
theorem reminder_update_frame (db : Db) (tid rid : Uuid) (p : ReminderUpdate)
    (db6 : Db) (t6 r : Reminder)
    (hR : find_scoped_reminder db tid rid = some r)
    (h : update_reminder db tid rid p = .ok (db6, t6)) :
    (p.message = none → t6.message = r.message) ∧
    (p.remind_at = none → t6.remind_at = r.remind_at) ∧
    t6.id = r.id ∧ t6.trip_id = r.trip_id ∧ t6.created_at = r.created_at ∧
    t6 ∈ db6.reminders := by
  obtain ⟨r', hR', e6, edb⟩ := update_reminder_ok_inv db tid rid p db6 t6 h
  rw [hR] at hR'
  obtain rfl := Option.some.inj hR'
  subst e6
  subst edb
  have hR0 : db.reminders.find? (fun u => u.id == rid && u.trip_id == tid) = some r := hR
  have hmem : r ∈ db.reminders := List.mem_of_find?_eq_some hR0
  have hpred := List.find?_some hR0
  simp only [Bool.and_eq_true] at hpred
  have hpred1 : (r.id == rid) = true := hpred.1
  refine ⟨fun h0 => by simp [h0, merge_req],
          fun h0 => by simp [h0, merge_req], rfl, rfl, rfl, ?_⟩
  exact List.mem_map.mpr ⟨r, hmem, by simp [hpred1]⟩

/-- C9: on every partial update of every entity, a field absent from the
payload keeps exactly its pre-update value in the written row (which is the
returned representation and lives in the new store), identities and
creation timestamps never change, and no update can reset an optional
field back to empty (an empty field in the result means it was absent from
the payload and already empty before). -/
theorem C9_partial_update_frame
    (db : Db) (tid iid nid rid : Uuid)
    (pT : TripUpdate) (pI : ItineraryItemUpdate) (pN : NoteUpdate) (pR : ReminderUpdate)
    (db2 db4 db6 db8 : Db) (t2 t : Trip) (t4 it : ItineraryItem)
    (t8 n : Note) (t6 r : Reminder)
    (hT : findTrip db tid = some t)
    (h2 : update_trip db tid pT = .ok (db2, t2))
    (hI : find_scoped_item db tid iid = some it)
    (h4 : update_itinerary_item db tid iid pI = .ok (db4, t4))
    (hN : find_scoped_note db tid nid = some n)
    (h8 : update_note db tid nid pN = .ok (db8, t8))
    (hR : find_scoped_reminder db tid rid = some r)
    (h6 : update_reminder db tid rid pR = .ok (db6, t6)) :
    ((pT.name = none → t2.name = t.name) ∧
     (pT.start_date = none → t2.start_date = t.start_date) ∧
     (pT.end_date = none → t2.end_date = t.end_date) ∧
     t2.id = t.id ∧ t2.created_at = t.created_at ∧
     (t2.start_date = none → t.start_date = none) ∧
     (t2.end_date = none → t.end_date = none) ∧
     t2 ∈ db2.trips) ∧
    ((pI.day = none → t4.day = it.day) ∧
     (pI.title = none → t4.title = it.title) ∧
     (pI.description = none → t4.description = it.description) ∧
     (pI.start_time = none → t4.start_time = it.start_time) ∧
     (pI.end_time = none → t4.end_time = it.end_time) ∧
     (pI.destination_id = none → t4.destination_id = it.destination_id) ∧
     t4.id = it.id ∧ t4.trip_id = it.trip_id ∧
     (t4.description = none → it.description = none) ∧
     (t4.start_time = none → it.start_time = none) ∧
     (t4.end_time = none → it.end_time = none) ∧
     (t4.destination_id = none → it.destination_id = none) ∧
     t4 ∈ db4.items) ∧
    ((pN.content = none → t8.content = n.content) ∧
     t8.id = n.id ∧ t8.trip_id = n.trip_id ∧ t8.created_at = n.created_at ∧
     t8 ∈ db8.notes) ∧
    ((pR.message = none → t6.message = r.message) ∧
     (pR.remind_at = none → t6.remind_at = r.remind_at) ∧
     t6.id = r.id ∧ t6.trip_id = r.trip_id ∧ t6.created_at = r.created_at ∧
     t6 ∈ db6.reminders) :=
  ⟨trip_update_frame db tid pT db2 t2 t hT h2,
   itinerary_update_frame db tid iid pI db4 t4 it hI h4,
   note_update_frame db tid nid pN db8 t8 n hN h8,
   reminder_update_frame db tid rid pR db6 t6 r hR h6⟩

/-- Closed instance of C9: partial updates touching one field of the trip,
the item and the reminder, and an empty update of the note, leave every
other field exactly as stored. -/
theorem C9_partial_update_frame_witness :
    ((some " X " = none → ("X" : String) = "T") ∧
     ((none : Option Int) = none → (some 1 : Option Int) = some 1) ∧
     ((none : Option Int) = none → (some 9 : Option Int) = some 9) ∧
     (1 : Uuid) = 1 ∧ (0 : Int) = 0 ∧
     ((some 1 : Option Int) = none → (some 1 : Option Int) = none) ∧
     ((some 9 : Option Int) = none → (some 9 : Option Int) = none) ∧
     (⟨1, "X", some 1, some 9, 0⟩ : Trip) ∈ [(⟨1, "X", some 1, some 9, 0⟩ : Trip)]) ∧
    (((some 4 : Option Nat) = none → (4 : Nat) = 1) ∧
     ((none : Option String) = none → ("t" : String) = "t") ∧
     ((none : Option String) = none → (some "d" : Option String) = some "d") ∧
     ((none : Option Int) = none → (some 2 : Option Int) = some 2) ∧
     ((none : Option Int) = none → (some 3 : Option Int) = some 3) ∧
     ((none : Option Uuid) = none → (some 20 : Option Uuid) = some 20) ∧
     (10 : Uuid) = 10 ∧ (1 : Uuid) = 1 ∧
     ((some "d" : Option String) = none → (some "d" : Option String) = none) ∧
     ((some 2 : Option Int) = none → (some 2 : Option Int) = none) ∧
     ((some 3 : Option Int) = none → (some 3 : Option Int) = none) ∧
     ((some 20 : Option Uuid) = none → (some 20 : Option Uuid) = none) ∧
     (⟨10, 1, 4, "t", some "d", some 2, some 3, some 20⟩ : ItineraryItem) ∈
       [(⟨10, 1, 4, "t", some "d", some 2, some 3, some 20⟩ : ItineraryItem)]) ∧
    (((none : Option String) = none → ("c" : String) = "c") ∧
     (11 : Uuid) = 11 ∧ (1 : Uuid) = 1 ∧ (0 : Int) = 0 ∧
     (⟨11, 1, "c", 0⟩ : Note) ∈ [(⟨11, 1, "c", 0⟩ : Note)]) ∧
    (((none : Option String) = none → ("m" : String) = "m") ∧
     ((some 42 : Option Int) = none → (42 : Int) = 5) ∧
     (12 : Uuid) = 12 ∧ (1 : Uuid) = 1 ∧ (0 : Int) = 0 ∧
     (⟨12, 1, "m", 42, 0⟩ : Reminder) ∈ [(⟨12, 1, "m", 42, 0⟩ : Reminder)]) :=
  C9_partial_update_frame dbC9 1 10 11 12
    ⟨some " X ", none, none⟩ ⟨some 4, none, none, none, none, none⟩ ⟨none⟩ ⟨none, some 42⟩
    ⟨[⟨1, "X", some 1, some 9, 0⟩], [],
     [⟨10, 1, 1, "t", some "d", some 2, some 3, some 20⟩], [⟨11, 1, "c", 0⟩],
     [⟨12, 1, "m", 5, 0⟩]⟩
    ⟨[⟨1, "T", some 1, some 9, 0⟩], [],
     [⟨10, 1, 4, "t", some "d", some 2, some 3, some 20⟩], [⟨11, 1, "c", 0⟩],
     [⟨12, 1, "m", 5, 0⟩]⟩
    ⟨[⟨1, "T", some 1, some 9, 0⟩], [],
     [⟨10, 1, 1, "t", some "d", some 2, some 3, some 20⟩], [⟨11, 1, "c", 0⟩],
     [⟨12, 1, "m", 42, 0⟩]⟩
    ⟨[⟨1, "T", some 1, some 9, 0⟩], [],
     [⟨10, 1, 1, "t", some "d", some 2, some 3, some 20⟩], [⟨11, 1, "c", 0⟩],
     [⟨12, 1, "m", 5, 0⟩]⟩
    ⟨1, "X", some 1, some 9, 0⟩ ⟨1, "T", some 1, some 9, 0⟩
    ⟨10, 1, 4, "t", some "d", some 2, some 3, some 20⟩
    ⟨10, 1, 1, "t", some "d", some 2, some 3, some 20⟩
    ⟨11, 1, "c", 0⟩ ⟨11, 1, "c", 0⟩
    ⟨12, 1, "m", 42, 0⟩ ⟨12, 1, "m", 5, 0⟩
    (by decide) (by decide) (by decide) (by decide)
    (by decide) (by decide) (by decide) (by decide)

/-! ## C5 -/

/-- C5: every list and search response reports as total the count of all
rows matching the filter (the whole table for trips, the trip scope for
nested lists, the search predicate for destinations), computed
independently of limit and offset; the page holds at most limit items; and
the response echoes the limit and offset used. -/
theorem C5_pagination_contract (db : Db) (l o l2 o2 : Nat)
    (sb : TripSortBy) (sd : SortDir) (tid : Uuid) (q : String) (ic icity : Bool)
    (rI rI2 : ListResponse ItineraryItem) (rN : ListResponse Note)
    (rR : ListResponse Reminder) (rS rS2 : ListResponse DestinationSearchResult)
    (hI : list_itinerary_items db tid l o = .ok rI)
    (hI2 : list_itinerary_items db tid l2 o2 = .ok rI2)
    (hN : list_notes db tid l o = .ok rN)
    (hR : list_reminders db tid l o = .ok rR)
    (hS : search_destinations db q l o ic icity = .ok rS)
    (hS2 : search_destinations db q l2 o2 ic icity = .ok rS2) :
    (list_trips db l o sb sd).total = db.trips.length ∧
    (list_trips db l o sb sd).items.length ≤ l ∧
    (list_trips db l o sb sd).limit = l ∧
    (list_trips db l o sb sd).offset = o ∧
    (list_trips db l o sb sd).total = (list_trips db l2 o2 sb sd).total ∧
    rI.total = (db.items.filter (fun it => it.trip_id == tid)).length ∧
    rI.items.length ≤ l ∧ rI.limit = l ∧ rI.offset = o ∧ rI.total = rI2.total ∧
    rN.total = (db.notes.filter (fun u => u.trip_id == tid)).length ∧
    rN.items.length ≤ l ∧ rN.limit = l ∧ rN.offset = o ∧
    rR.total = (db.reminders.filter (fun u => u.trip_id == tid)).length ∧
    rR.items.length ≤ l ∧ rR.limit = l ∧ rR.offset = o ∧
    rS.total = (db.destinations.filter
      (dest_matches ("%" ++ pyStrip q ++ "%") ic icity)).length ∧
    rS.items.length ≤ l ∧ rS.limit = l ∧ rS.offset = o ∧ rS.total = rS2.total := by
  cases hf : findTrip db tid with
  | none => simp only [list_itinerary_items, hf] at hI; exact absurd hI (by simp)
  | some tr =>
  simp only [list_itinerary_items, hf, Except.ok.injEq] at hI hI2
  simp only [list_notes, hf, Except.ok.injEq] at hN
  simp only [list_reminders, hf, Except.ok.injEq] at hR
  by_cases hq : (pyStrip q == "") = true
  · simp only [search_destinations, hq, if_true] at hS
    exact absurd hS (by simp)
  · simp only [Bool.not_eq_true] at hq
    simp only [search_destinations, hq, Bool.false_eq_true, if_false,
      Except.ok.injEq] at hS hS2
    subst hI
    subst hI2
    subst hN
    subst hR
    subst hS
    subst hS2
    refine ⟨rfl, ?_, rfl, rfl, rfl, rfl, ?_, rfl, rfl, rfl, rfl, ?_, rfl, rfl,
            rfl, ?_, rfl, rfl, rfl, ?_, rfl, rfl, rfl⟩
    · exact paginate_length_le l o _
    · exact paginate_length_le l o _
    · exact paginate_length_le l o _
    · exact paginate_length_le l o _
    · rw [List.length_map]
      exact paginate_length_le l o _

/-- Closed instance of C5 on a store with three itinerary items, two notes,
one reminder and two destinations matching the query par. -/
theorem C5_pagination_contract_witness :
    (list_trips dbC5 2 0 .by_created_at .desc).total = dbC5.trips.length ∧
    (list_trips dbC5 2 0 .by_created_at .desc).items.length ≤ 2 ∧
    (list_trips dbC5 2 0 .by_created_at .desc).limit = 2 ∧
    (list_trips dbC5 2 0 .by_created_at .desc).offset = 0 ∧
    (list_trips dbC5 2 0 .by_created_at .desc).total =
      (list_trips dbC5 1 1 .by_created_at .desc).total ∧
    (3 : Nat) = (dbC5.items.filter (fun it => it.trip_id == 1)).length ∧
    ([⟨12, 1, 1, "C", none, some 3, none, none⟩,
      ⟨10, 1, 1, "A", none, none, none, none⟩] :
        List ItineraryItem).length ≤ 2 ∧
    (2 : Nat) = 2 ∧ (0 : Nat) = 0 ∧ (3 : Nat) = 3 ∧
    (2 : Nat) = (dbC5.notes.filter (fun u => u.trip_id == 1)).length ∧
    ([⟨14, 1, "n2", 2⟩, ⟨13, 1, "n1", 1⟩] : List Note).length ≤ 2 ∧
    (2 : Nat) = 2 ∧ (0 : Nat) = 0 ∧
    (1 : Nat) = (dbC5.reminders.filter (fun u => u.trip_id == 1)).length ∧
    ([⟨15, 1, "m", 4, 0⟩] : List Reminder).length ≤ 2 ∧
    (2 : Nat) = 2 ∧ (0 : Nat) = 0 ∧
    (2 : Nat) = (dbC5.destinations.filter
      (dest_matches ("%" ++ pyStrip "par" ++ "%") true true)).length ∧
    ([⟨20, "Paris", some "France", some "Paris", some 5, none⟩,
      ⟨21, "Sparta", some "Greece", none, none, none⟩] :
        List DestinationSearchResult).length ≤ 2 ∧
    (2 : Nat) = 2 ∧ (0 : Nat) = 0 ∧ (2 : Nat) = 2 :=
  C5_pagination_contract dbC5 2 0 1 1 .by_created_at .desc 1 "par" true true
    ⟨3, 2, 0, [⟨12, 1, 1, "C", none, some 3, none, none⟩,
               ⟨10, 1, 1, "A", none, none, none, none⟩]⟩
    ⟨3, 1, 1, [⟨10, 1, 1, "A", none, none, none, none⟩]⟩
    ⟨2, 2, 0, [⟨14, 1, "n2", 2⟩, ⟨13, 1, "n1", 1⟩]⟩
    ⟨1, 2, 0, [⟨15, 1, "m", 4, 0⟩]⟩
    ⟨2, 2, 0, [⟨20, "Paris", some "France", some "Paris", some 5, none⟩,
               ⟨21, "Sparta", some "Greece", none, none, none⟩]⟩
    ⟨2, 1, 1, [⟨21, "Sparta", some "Greece", none, none, none⟩]⟩
    (by decide) (by decide) (by decide) (by decide) (by decide) (by decide)

/-! ## C6 -/

/-- C6 (counterexample): the claim says the trip listing carries a
deterministic secondary tie-break making the order of equal-keyed trips
uniquely determined.  _apply_trip_sorting orders by a single column only:
the two distinct trips below agree on both name and created_at, the
comparator ties them in both directions for every sort choice, and the same
set of rows stored in a different underlying order yields a different first
page at identical query parameters, so the order of ties is not determined
by the query. -/
theorem C6_no_tie_break_counterexample :
    tC6a ≠ tC6b ∧
    dbC6A.trips.Perm dbC6B.trips ∧
    trip_sort_le .by_name .asc tC6a tC6b = true ∧
    trip_sort_le .by_name .asc tC6b tC6a = true ∧
    trip_sort_le .by_name .desc tC6a tC6b = true ∧
    trip_sort_le .by_name .desc tC6b tC6a = true ∧
    trip_sort_le .by_created_at .asc tC6a tC6b = true ∧
    trip_sort_le .by_created_at .asc tC6b tC6a = true ∧
    trip_sort_le .by_created_at .desc tC6a tC6b = true ∧
    trip_sort_le .by_created_at .desc tC6b tC6a = true ∧
    (list_trips dbC6A 1 0 .by_created_at .desc).items ≠
      (list_trips dbC6B 1 0 .by_created_at .desc).items := by
  decide

/-- C6 (amended): the trip ordering compares only the selected column, with
no secondary tie-break: any two trips with equal values in the chosen sort
column are tied by the comparator in both directions, for either direction
setting, so their relative order is left to the underlying row order rather
than determined by the query. -/
theorem C6_single_column_ordering (sb : TripSortBy) (sd : SortDir) (a b : Trip)
    (h : trip_sort_col_eq sb a b) :
    trip_sort_le sb sd a b = true ∧ trip_sort_le sb sd b a = true := by
  cases sb <;> cases sd <;>
    simp only [trip_sort_col_eq] at h <;>
    simp [trip_sort_le, h, compare_eq_iff_eq.mpr rfl, Ordering.isLE]

/-- Closed instance of the amended C6 at the tied pair. -/
theorem C6_single_column_ordering_witness :
    trip_sort_le .by_name .asc tC6a tC6b = true ∧
    trip_sort_le .by_name .asc tC6b tC6a = true :=
  C6_single_column_ordering .by_name .asc tC6a tC6b rfl

/-! ## C7 -/

/-- C7: deleting a trip removes, in the one transition of its single
commit, the trip together with every itinerary item, note and reminder
whose trip_id is that trip; afterwards the trip and each such child answer
NotFound on get, while children of other trips, other trips and all
destinations are untouched. -/
theorem C7_cascade_delete (db : Db) (tid : Uuid) (db2 : Db)
    (h : delete_trip db tid = .ok (db2, ())) :
    get_trip db2 tid = .error .notFound ∧
    (∀ it ∈ db.items, it.trip_id = tid →
      get_itinerary_item db2 tid it.id = .error .notFound ∧ it ∉ db2.items) ∧
    (∀ n ∈ db.notes, n.trip_id = tid →
      get_note db2 tid n.id = .error .notFound ∧ n ∉ db2.notes) ∧
    (∀ r ∈ db.reminders, r.trip_id = tid →
      get_reminder db2 tid r.id = .error .notFound ∧ r ∉ db2.reminders) ∧
    (∀ it : ItineraryItem, it.trip_id ≠ tid → (it ∈ db2.items ↔ it ∈ db.items)) ∧
    (∀ n : Note, n.trip_id ≠ tid → (n ∈ db2.notes ↔ n ∈ db.notes)) ∧
    (∀ r : Reminder, r.trip_id ≠ tid → (r ∈ db2.reminders ↔ r ∈ db.reminders)) ∧
    (∀ t : Trip, t.id ≠ tid → (t ∈ db2.trips ↔ t ∈ db.trips)) ∧
    db2.destinations = db.destinations := by
  unfold delete_trip at h
  cases hf : findTrip db tid with
  | none => rw [hf] at h; exact absurd h (by simp)
  | some tr =>
  rw [hf] at h
  simp only [Except.ok.injEq, Prod.mk.injEq] at h
  obtain ⟨hdb, -⟩ := h
  subst hdb
  have hTrips : findTrip
      ({ trips := db.trips.filter (fun t => !(t.id == tid)),
         destinations := db.destinations,
         items := db.items.filter (fun it => !(it.trip_id == tid)),
         notes := db.notes.filter (fun n => !(n.trip_id == tid)),
         reminders := db.reminders.filter (fun r => !(r.trip_id == tid)) } : Db)
      tid = none := by
    apply List.find?_eq_none.mpr
    intro t ht
    have := (List.mem_filter.mp ht).2
    simpa using this
  refine ⟨?_, ?_, ?_, ?_, ?_, ?_, ?_, ?_, rfl⟩
  · simp only [get_trip, hTrips]
  · intro it _ hit
    constructor
    · simp only [get_itinerary_item, hTrips]
    · intro hmem
      have := (List.mem_filter.mp hmem).2
      simp [hit] at this
  · intro n _ hn
    constructor
    · simp only [get_note, hTrips]
    · intro hmem
      have := (List.mem_filter.mp hmem).2
      simp [hn] at this
  · intro r _ hr
    constructor
    · simp only [get_reminder, hTrips]
    · intro hmem
      have := (List.mem_filter.mp hmem).2
      simp [hr] at this
  · intro it hne
    simp only [List.mem_filter]
    constructor
    · exact fun hm => hm.1
    · exact fun hm => ⟨hm, by simpa using hne⟩
  · intro n hne
    simp only [List.mem_filter]
    constructor
    · exact fun hm => hm.1
    · exact fun hm => ⟨hm, by simpa using hne⟩
  · intro r hne
    simp only [List.mem_filter]
    constructor
    · exact fun hm => hm.1
    · exact fun hm => ⟨hm, by simpa using hne⟩
  · intro t hne
    simp only [List.mem_filter]
    constructor
    · exact fun hm => hm.1
    · exact fun hm => ⟨hm, by simpa using hne⟩

/-- Closed instance of C7: deleting trip 1 removes its item, note and
reminder; trip 2 and its children, and the destination table, survive. -/
theorem C7_cascade_delete_witness :
    get_trip db2C7val 1 = .error .notFound ∧
    get_itinerary_item db2C7val 1 10 = .error .notFound ∧
    (⟨10, 1, 1, "a", none, none, none, none⟩ : ItineraryItem) ∉ db2C7val.items ∧
    get_note db2C7val 1 12 = .error .notFound ∧
    (⟨12, 1, "n1", 0⟩ : Note) ∉ db2C7val.notes ∧
    get_reminder db2C7val 1 14 = .error .notFound ∧
    (⟨14, 1, "r1", 1, 0⟩ : Reminder) ∉ db2C7val.reminders ∧
    ((⟨11, 2, 1, "b", none, none, none, none⟩ : ItineraryItem) ∈ db2C7val.items ↔
      (⟨11, 2, 1, "b", none, none, none, none⟩ : ItineraryItem) ∈ dbC7.items) ∧
    ((⟨13, 2, "n2", 0⟩ : Note) ∈ db2C7val.notes ↔ (⟨13, 2, "n2", 0⟩ : Note) ∈ dbC7.notes) ∧
    ((⟨15, 2, "r2", 2, 0⟩ : Reminder) ∈ db2C7val.reminders ↔
      (⟨15, 2, "r2", 2, 0⟩ : Reminder) ∈ dbC7.reminders) ∧
    ((⟨2, "T2", none, none, 0⟩ : Trip) ∈ db2C7val.trips ↔
      (⟨2, "T2", none, none, 0⟩ : Trip) ∈ dbC7.trips) ∧
    db2C7val.destinations = dbC7.destinations := by
  obtain ⟨h1, h2, h3, h4, h5, h6, h7, h8, h9⟩ :=
    C7_cascade_delete dbC7 1 db2C7val (by decide)
  obtain ⟨h2a, h2b⟩ := h2 ⟨10, 1, 1, "a", none, none, none, none⟩ (by decide) rfl
  obtain ⟨h3a, h3b⟩ := h3 ⟨12, 1, "n1", 0⟩ (by decide) rfl
  obtain ⟨h4a, h4b⟩ := h4 ⟨14, 1, "r1", 1, 0⟩ (by decide) rfl
  exact ⟨h1, h2a, h2b, h3a, h3b, h4a, h4b,
         h5 ⟨11, 2, 1, "b", none, none, none, none⟩ (by decide),
         h6 ⟨13, 2, "n2", 0⟩ (by decide),
         h7 ⟨15, 2, "r2", 2, 0⟩ (by decide),
         h8 ⟨2, "T2", none, none, 0⟩ (by decide), h9⟩

/-! ## C8 -/

/-- Membership in a step of the insertion sort. -/
theorem mem_insert_le {α : Type} (le : α → α → Bool) (a x : α) (l : List α) :
    x ∈ insert_le le a l ↔ x = a ∨ x ∈ l := by
  induction l with
  | nil => simp [insert_le]
  | cons b bs ih =>
    by_cases h : le a b = true
    · simp [insert_le, h]
    · simp only [insert_le, h, Bool.false_eq_true, if_false, List.mem_cons, ih]
      tauto

/-- The sort is a permutation at the level of membership. -/
theorem mem_order_by {α : Type} (le : α → α → Bool) (x : α) (l : List α) :
    x ∈ order_by le l ↔ x ∈ l := by
  induction l with
  | nil => simp [order_by]
  | cons a as ih => simp [order_by, mem_insert_le, ih]

/-- A page only holds rows of the full result. -/
theorem mem_of_mem_paginate {α : Type} (l o : Nat) (x : α) (rows : List α)
    (h : x ∈ paginate l o rows) : x ∈ rows := by
  simp only [paginate] at h
  exact List.mem_of_mem_drop (List.mem_of_mem_take h)

/-- The WHERE clause built from the conditions list equals the direct OR of
the name condition and the two toggled conditions. -/
theorem dest_matches_eq_or (pattern : String) (ic icity : Bool) (d : Destination) :
    dest_matches pattern ic icity d =
      (ilike pattern d.name || (ic && ilike_opt pattern d.country) ||
        (icity && ilike_opt pattern d.city)) := by
  cases ic <;> cases icity <;>
    simp [dest_matches, search_conditions, Bool.or_assoc]

/-- C8 (counterexample): the claim says search returns exactly the
destinations where the trimmed query appears as a case-insensitive
substring of the toggled fields.  The handler interpolates the query into
the LIKE pattern without escaping, so the underscore in the query a_c acts
as a one-character wildcard: the destination named axc is returned (total 1
and in the page) although a_c is not a substring of axc (and its country
and city are absent), falsifying the claim at this input. -/
theorem C8_wildcard_counterexample :
    search_destinations dbC8 "a_c" 20 0 true true =
      .ok { total := 1, limit := 20, offset := 0,
            items := [⟨30, "axc", none, none, none, none⟩] } ∧
    spec_substring_or_match "a_c" true true
      ⟨30, "axc", none, none, none, none⟩ = false := by
  decide

/-- C8 (amended): destination search matches exactly the destinations where
the percent-wrapped trimmed query matches the name as a case-insensitive
SQL LIKE fragment, OR the country when include_country, OR the city when
include_city (for queries free of percent and underscore this LIKE match is
exactly substring matching); with both flags false only the name is
matched.  The reported total counts exactly the rows satisfying this
predicate and every returned item comes from such a row. -/
theorem C8_search_like_semantics (db : Db) (q : String) (l o : Nat)
    (ic icity : Bool) (rS : ListResponse DestinationSearchResult)
    (hS : search_destinations db q l o ic icity = .ok rS) :
    rS.total = (db.destinations.filter (spec_like_or_match (pyStrip q) ic icity)).length ∧
    (∀ d : Destination, dest_matches ("%" ++ pyStrip q ++ "%") ic icity d =
      spec_like_or_match (pyStrip q) ic icity d) ∧
    (∀ x ∈ rS.items, ∃ d ∈ db.destinations,
      spec_like_or_match (pyStrip q) ic icity d = true ∧ x = to_search_result d) ∧
    (ic = false → icity = false →
      ∀ d : Destination, dest_matches ("%" ++ pyStrip q ++ "%") ic icity d =
        ilike ("%" ++ pyStrip q ++ "%") d.name) := by
  have hpt : ∀ d : Destination, dest_matches ("%" ++ pyStrip q ++ "%") ic icity d =
      spec_like_or_match (pyStrip q) ic icity d := by
    intro d
    exact dest_matches_eq_or _ ic icity d
  by_cases hq : (pyStrip q == "") = true
  · simp only [search_destinations, hq, if_true] at hS
    exact absurd hS (by simp)
  · simp only [Bool.not_eq_true] at hq
    simp only [search_destinations, hq, Bool.false_eq_true, if_false,
      Except.ok.injEq] at hS
    subst hS
    refine ⟨?_, hpt, ?_, ?_⟩
    · exact congrArg List.length (List.filter_congr (fun d _ => hpt d))
    · intro x hx
      simp only [List.mem_map] at hx
      obtain ⟨d, hd, hxeq⟩ := hx
      have hd2 : d ∈ db.destinations.filter
          (dest_matches ("%" ++ pyStrip q ++ "%") ic icity) :=
        (mem_order_by dest_le d _).mp (mem_of_mem_paginate l o d _ hd)
      obtain ⟨hmem, hpred⟩ := List.mem_filter.mp hd2
      refine ⟨d, hmem, ?_, hxeq.symm⟩
      rw [← hpt d]
      exact hpred
    · intro h1 h2 d
      subst h1
      subst h2
      rw [hpt d]
      simp [spec_like_or_match]

/-- Closed instance of the amended C8: the query par, trimmed from
spaced input, matches the Paris destination only through its city, and the
code predicate agrees with the spec-shaped OR predicate there. -/
theorem C8_search_like_semantics_witness :
    (1 : Nat) = (dbC8p.destinations.filter
      (spec_like_or_match (pyStrip " par ") true true)).length ∧
    dest_matches ("%" ++ pyStrip " par " ++ "%") true true parisDest =
      spec_like_or_match (pyStrip " par ") true true parisDest ∧
    spec_like_or_match "par" true true parisDest = true ∧
    spec_like_or_match "par" true false parisDest = false ∧
    spec_ci_substring "par" "Paris" = true ∧
    spec_ci_substring "par" "City of Light" = false ∧
    spec_ci_substring "par" "France" = false := by
  have h := C8_search_like_semantics dbC8p " par " 20 0 true true
    ⟨1, 20, 0, [to_search_result parisDest]⟩ (by decide)
  exact ⟨h.1, h.2.1 parisDest, by decide, by decide, by decide, by decide, by decide⟩

end TravelPlanner
